import Mathlib

/-!
Verification development for the MOON session-memory manager.

The definitions below are a shallow embedding of the Rust sources under
`src/src/moon/`: pure functions are translated directly, stateful code is
expressed by explicit state passing, fallible code returns `Except`.
Machine integers (`u64`, `usize`) are modelled as `Nat`; `u64` subtraction in
the source is `saturating_sub`, which coincides with truncated `Nat`
subtraction.  `f64` ratios are modelled as `Rat` (only order comparisons and
exact divisions of machine integers are performed on them in the source).
External effects (file system, subprocesses, HTTP) are passed in as explicit
parameters of the functions that perform them.

String manipulation from the Rust standard library (`trim`, `lines`,
`split_whitespace`, `replace`, `starts_with`, `contains`, `parse`) is
re-implemented here on the character list underlying `String`, so that every
definition evaluates by kernel reduction.
-/

namespace Moon

/-! ## String primitives (models of the `str` methods used by the sources) -/

/-- `str::trim` (on the ASCII whitespace recognised by `Char.isWhitespace`). -/
def strTrim (s : String) : String :=
  ⟨((s.data.dropWhile fun c => c.isWhitespace).reverse.dropWhile
      fun c => c.isWhitespace).reverse⟩

/-- `str::trim_start`. -/
def strTrimStart (s : String) : String :=
  ⟨s.data.dropWhile fun c => c.isWhitespace⟩

/-- `str::trim_end`. -/
def strTrimEnd (s : String) : String :=
  ⟨(s.data.reverse.dropWhile fun c => c.isWhitespace).reverse⟩

/-- `str::is_empty`. -/
def strIsEmpty (s : String) : Bool := s.data.isEmpty

/-- `str::starts_with` for a string pattern. -/
def strStartsWith (s pre : String) : Bool := pre.data.isPrefixOf s.data

/-- `str::contains` for a string pattern. -/
def strContains (s pat : String) : Bool :=
  s.data.tails.any fun t => pat.data.isPrefixOf t

/-- Character count (`str::chars().count()`). -/
def strCharCount (s : String) : Nat := s.data.length

/-- First `n` characters (`str::chars().take(n)`). -/
def strTakeChars (n : Nat) (s : String) : String := ⟨s.data.take n⟩

/-- Splitting a character list at a delimiter character, keeping empty
segments (the behaviour of `str::split(c)`). -/
def splitCharAux (c : Char) : List Char → List Char → List (List Char)
  | [], acc => [acc.reverse]
  | x :: xs, acc =>
    if x = c then acc.reverse :: splitCharAux c xs []
    else splitCharAux c xs (x :: acc)

/-- `str::split(c)` as a list of strings. -/
def strSplitChar (c : Char) (s : String) : List String :=
  (splitCharAux c s.data []).map fun l => ⟨l⟩

/-- `str::lines`: split at `'\n'`, drop one trailing empty segment (a final
line terminator produces no extra line), strip a trailing `'\r'` from each
line. -/
def strLines (s : String) : List String :=
  let segs := splitCharAux '\n' s.data []
  let segs := match segs.reverse with
    | [] :: rest => rest.reverse
    | _ => segs
  segs.map fun l =>
    match l.reverse with
    | '\r' :: rest => ⟨rest.reverse⟩
    | _ => ⟨l⟩

/-- `str::split_whitespace` on a character list. -/
def splitWsAux : List Char → List Char → List (List Char)
  | [], acc => if acc.isEmpty then [] else [acc.reverse]
  | x :: xs, acc =>
    if x.isWhitespace then
      if acc.isEmpty then splitWsAux xs [] else acc.reverse :: splitWsAux xs []
    else splitWsAux xs (x :: acc)

/-- `str::split_whitespace` as a list of strings. -/
def strSplitWhitespace (s : String) : List String :=
  (splitWsAux s.data []).map fun l => ⟨l⟩

/-- Leftmost non-overlapping replacement on character lists, fuelled by the
input length (the pattern is never empty at the call sites). -/
def replaceAllAux (pat rep : List Char) : Nat → List Char → List Char
  | _, [] => []
  | 0, l => l
  | fuel + 1, x :: xs =>
    if pat ≠ [] ∧ pat.isPrefixOf (x :: xs) then
      rep ++ replaceAllAux pat rep fuel (List.drop pat.length (x :: xs))
    else
      x :: replaceAllAux pat rep fuel xs

/-- `str::replace` (all occurrences, leftmost, non-overlapping). -/
def strReplace (s pat rep : String) : String :=
  ⟨replaceAllAux pat.data rep.data s.data.length s.data⟩

/-- `u64::from_str`: optional leading `'+'`, one or more ASCII digits, value
within `u64` range. -/
def parseU64 (s : String) : Option Nat :=
  let chars := match s.data with
    | '+' :: rest => rest
    | l => l
  if chars.isEmpty then none
  else if chars.all fun c => c.isDigit then
    let v := chars.foldl (fun acc c => acc * 10 + (c.toNat - 48)) 0
    if v < 2 ^ 64 then some v else none
  else none

/-! ## Basic data model (config.rs, state.rs, session_usage.rs) -/

/-- `MoonThresholds` (config.rs).  The watcher additionally reads a
`compaction_ratio` field from this section, so it is included here. -/
structure MoonThresholds where
  trigger_ratio : Rat
  compaction_ratio : Rat
deriving DecidableEq, Repr

/-- `MoonWatcherConfig` (config.rs). -/
structure MoonWatcherConfig where
  poll_interval_secs : Nat
  cooldown_secs : Nat
deriving DecidableEq, Repr

/-- `MoonInboundWatchConfig` (config.rs). -/
structure MoonInboundWatchConfig where
  enabled : Bool
  recursive : Bool
  watch_paths : List String
  event_mode : String
deriving DecidableEq, Repr

/-- `MoonDistillConfig` (config.rs), extended by the `archive_grace_hours`
field that the watcher reads from the distill section. -/
structure MoonDistillConfig where
  mode : String
  idle_secs : Nat
  max_per_cycle : Nat
  residential_timezone : String
  topic_discovery : Bool
  archive_grace_hours : Nat
deriving DecidableEq, Repr

/-- `MoonRetentionConfig` (config.rs). -/
structure MoonRetentionConfig where
  active_days : Nat
  warm_days : Nat
  cold_days : Nat
deriving DecidableEq, Repr

/-- `MoonConfig` (config.rs). -/
structure MoonConfig where
  thresholds : MoonThresholds
  watcher : MoonWatcherConfig
  inbound_watch : MoonInboundWatchConfig
  distill : MoonDistillConfig
  retention : MoonRetentionConfig
deriving DecidableEq, Repr

/-- Persisted watcher state (state.rs / watcher.rs).  `distilled_archives`
models the `BTreeMap<String, u64>` as its entry list in ascending key order. -/
structure MoonState where
  last_heartbeat_epoch_secs : Nat
  last_archive_trigger_epoch_secs : Option Nat
  last_compaction_trigger_epoch_secs : Option Nat
  last_distill_trigger_epoch_secs : Option Nat
  last_session_id : Option String
  last_usage_ratio : Option Rat
  last_provider : Option String
  distilled_archives : List (String × Nat)
deriving DecidableEq, Repr

/-- `SessionUsageSnapshot` (session_usage.rs). -/
structure SessionUsageSnapshot where
  session_id : String
  used_tokens : Nat
  max_tokens : Nat
  usage_ratio : Rat
  captured_at_epoch_secs : Nat
  provider : String
deriving DecidableEq, Repr

/-! ## Trigger evaluator (thresholds.rs) -/

/-- `TriggerKind` (thresholds.rs). -/
inductive TriggerKind where
  | Archive
  | Compaction
deriving DecidableEq, Repr

/-- `unified_layer1_last_trigger` (thresholds.rs:44). -/
def unified_layer1_last_trigger (state : MoonState) : Option Nat :=
  match state.last_archive_trigger_epoch_secs,
        state.last_compaction_trigger_epoch_secs with
  | some a, some b => some (Nat.max a b)
  | some v, none => some v
  | none, some v => some v
  | none, none => none

/-- `should_fire` (thresholds.rs:55); `now_epoch.saturating_sub(last)` is `Nat`
subtraction. -/
def should_fire (last_epoch : Option Nat) (now_epoch cooldown_secs : Nat) : Bool :=
  match last_epoch with
  | none => true
  | some last => decide (cooldown_secs ≤ now_epoch - last)

/-- `evaluate` (thresholds.rs:62): the push-based trigger list construction. -/
def evaluate (cfg : MoonConfig) (state : MoonState) (usage : SessionUsageSnapshot) :
    List TriggerKind :=
  let now := usage.captured_at_epoch_secs
  if cfg.thresholds.trigger_ratio ≤ usage.usage_ratio ∧
      should_fire (unified_layer1_last_trigger state) now cfg.watcher.cooldown_secs = true
  then [TriggerKind.Archive, TriggerKind.Compaction]
  else []

/-- The claim's firing condition, stated in its own words: usage reaches the
trigger ratio, and the time elapsed since
`max(last_archive_trigger, last_compaction_trigger)` reaches the cooldown
(a missing last-trigger value counts as cooldown elapsed); subtraction of
`u64` epochs is saturating. -/
def claim_trigger_condition (cfg : MoonConfig) (state : MoonState)
    (usage : SessionUsageSnapshot) : Prop :=
  cfg.thresholds.trigger_ratio ≤ usage.usage_ratio ∧
    (match state.last_archive_trigger_epoch_secs,
           state.last_compaction_trigger_epoch_secs with
     | none, none => True
     | some a, none => cfg.watcher.cooldown_secs ≤ usage.captured_at_epoch_secs - a
     | none, some b => cfg.watcher.cooldown_secs ≤ usage.captured_at_epoch_secs - b
     | some a, some b =>
       cfg.watcher.cooldown_secs ≤ usage.captured_at_epoch_secs - Nat.max a b)

/-! ## Session usage probe (session_usage.rs) -/

/-- `usage_ratio` (session_usage.rs:34), on `Rat`. -/
def usage_ratio_of (used mx : Nat) : Rat :=
  if mx = 0 then 0 else (used : Rat) / (mx : Rat)

/-- `to_snapshot` (session_usage.rs:41); `epoch_now()` is passed in as `now`. -/
def to_snapshot (session_id : String) (used_tokens max_tokens : Nat)
    (provider : String) (now : Nat) : SessionUsageSnapshot :=
  let mx := if max_tokens = 0 then 1 else max_tokens
  { session_id := session_id
    used_tokens := used_tokens
    max_tokens := mx
    usage_ratio := usage_ratio_of used_tokens mx
    captured_at_epoch_secs := now
    provider := provider }

/-- The per-session mapping of `collect_openclaw_usages` (session_usage.rs:256)
applied to the `(session_id, used, max)` triples returned by
`parse_openclaw_sessions`; subprocess output collection is external. -/
def collect_openclaw_usages_map (snapshots : List (String × Nat × Nat))
    (captured_at_epoch_secs : Nat) : List SessionUsageSnapshot :=
  snapshots.map fun t =>
    let mx := if t.2.2 = 0 then 1 else t.2.2
    { session_id := t.1
      used_tokens := t.2.1
      max_tokens := mx
      usage_ratio := usage_ratio_of t.2.1 mx
      captured_at_epoch_secs := captured_at_epoch_secs
      provider := "openclaw" }

/-! ## Channel archive map (channel_archive_map.rs) -/

/-- `ChannelArchiveRecord` (channel_archive_map.rs). -/
structure ChannelArchiveRecord where
  channel_key : String
  source_path : String
  archive_path : String
  updated_at_epoch_secs : Nat
deriving DecidableEq, Repr

/-- The on-disk channel map, as the key-to-record mapping stored in
`continuity/channel_archive_map.json`. -/
def ChannelArchiveMap : Type := String → Option ChannelArchiveRecord

/-- `BTreeMap::insert` on the channel map. -/
def channel_map_insert (m : ChannelArchiveMap) (k : String)
    (v : ChannelArchiveRecord) : ChannelArchiveMap :=
  fun q => if q = k then some v else m q

/-- `upsert` (channel_archive_map.rs:59): validate the three arguments, then
insert the fresh record and save the whole map.  `now_epoch_secs()` is passed
in as `now`; the loaded on-disk map is passed in as `m`. -/
def upsert (m : ChannelArchiveMap) (channel_key source_path archive_path : String)
    (now : Nat) : Except String (ChannelArchiveMap × ChannelArchiveRecord) :=
  if strIsEmpty (strTrim channel_key) then .error "channel key cannot be empty"
  else if strIsEmpty (strTrim source_path) then .error "source path cannot be empty"
  else if strIsEmpty (strTrim archive_path) then .error "archive path cannot be empty"
  else
    let record : ChannelArchiveRecord :=
      { channel_key := channel_key
        source_path := source_path
        archive_path := archive_path
        updated_at_epoch_secs := now }
    .ok (channel_map_insert m channel_key record, record)

/-- The on-disk map after an `upsert` call: the saved map on success, the
untouched previous map when `upsert` bailed before `save`. -/
def upsert_disk_after (m : ChannelArchiveMap)
    (channel_key source_path archive_path : String) (now : Nat) : ChannelArchiveMap :=
  match upsert m channel_key source_path archive_path now with
  | .ok (m', _) => m'
  | .error _ => m

/-- An empty concrete channel map, used for witness instances. -/
def empty_channel_map : ChannelArchiveMap := fun _ => none

/-! ## Path helpers (std::path behaviour used by the archive pipeline).
Paths are `/`-separated strings; trailing separators do not occur at the
call sites. -/

/-- `Path::file_name`. -/
def pathFileName (p : String) : Option String :=
  match (strSplitChar '/' p).reverse with
  | [] => none
  | last :: _ => if strIsEmpty last then none else some last

/-- Split a file name into `(file_stem, extension)` following `std::path`:
the extension is the part after the last `.`, except that a lone leading `.`
marks a hidden file without extension. -/
def pathExtAndStem (name : String) : String × Option String :=
  match (splitCharAux '.' name.data []).reverse with
  | [] => (name, none)
  | [_] => (name, none)
  | ext :: stemparts =>
    if stemparts = [[]] then (name, none)
    else (⟨List.intercalate ['.'] stemparts.reverse⟩, some ⟨ext⟩)

/-- `Path::file_stem`. -/
def pathFileStem (p : String) : Option String :=
  (pathFileName p).map fun n => (pathExtAndStem n).1

/-- `Path::extension`. -/
def pathExtension (p : String) : Option String :=
  (pathFileName p).bind fun n => (pathExtAndStem n).2

/-- Join path components with `/`. -/
def joinPath (l : List String) : String :=
  ⟨List.intercalate ['/'] (l.map String.data)⟩

/-- `PathBuf::set_extension("md")`. -/
def setExtensionMd (p : String) : String :=
  match (strSplitChar '/' p).reverse with
  | [] => p
  | last :: revInit =>
    joinPath (revInit.reverse ++ [(pathExtAndStem last).1 ++ ".md"])

/-! ## Archive pipeline (snapshot.rs, archive.rs) -/

/-- `ArchiveRecord` (archive.rs:15). -/
structure ArchiveRecord where
  session_id : String
  source_path : String
  archive_path : String
  projection_path : Option String
  projection_filtered_noise_count : Option Nat
  content_hash : String
  created_at_epoch_secs : Nat
  indexed_collection : String
  indexed : Bool
deriving DecidableEq, Repr

instance : Inhabited ArchiveRecord :=
  ⟨{ session_id := "", source_path := "", archive_path := "",
     projection_path := none, projection_filtered_noise_count := none,
     content_hash := "", created_at_epoch_secs := 0, indexed_collection := "",
     indexed := false }⟩

/-- `ArchivePipelineOutcome` (archive.rs:29), without the constant ledger
path. -/
structure ArchivePipelineOutcome where
  record : ArchiveRecord
  deduped : Bool
deriving DecidableEq, Repr

instance : Inhabited ArchivePipelineOutcome := ⟨{ record := default, deduped := false }⟩

/-- The file system visible to the pipeline: an association list from path to
file contents (bytes as a string). -/
abbrev FileSys : Type := List (String × String)

/-- Reading a file. -/
def fsLookup : FileSys → String → Option String
  | [], _ => none
  | kv :: rest, p => if kv.1 = p then some kv.2 else fsLookup rest p

/-- `fs::write`: truncate-or-create. -/
def fsWrite : FileSys → String → String → FileSys
  | [], p, c => [(p, c)]
  | kv :: rest, p, c => if kv.1 = p then (p, c) :: rest else kv :: fsWrite rest p c

/-- `fs::remove_file` (used by retention). -/
def fsRemove : FileSys → String → FileSys
  | [], _ => []
  | kv :: rest, p => if kv.1 = p then fsRemove rest p else kv :: fsRemove rest p

/-- The state touched by the archive pipeline: the file system and the parsed
ledger (`archives/ledger.jsonl`, one record per line). -/
structure FsState where
  files : FileSys
  ledger : List ArchiveRecord
deriving DecidableEq, Repr

/-- `projection_path_for_archive_path` (archive.rs:65): an archive under a
`raw/` directory projects to the sibling `mlib/` directory with an `.md`
suffix, anything else to the archive path with its extension replaced. -/
def projection_path_for_archive_path (archive_path : String) : String :=
  match (strSplitChar '/' archive_path).reverse with
  | file_name :: parent :: rest =>
    if parent = "raw" then
      joinPath (rest.reverse ++ ["mlib", (pathExtAndStem file_name).1 ++ ".md"])
    else setExtensionMd archive_path
  | _ => setExtensionMd archive_path

/-- `sanitize_slug` (snapshot.rs:39). -/
def sanitize_slug (input : String) : String :=
  let step : (List Char × Bool) → Char → (List Char × Bool) := fun acc ch =>
    if ch.isAlphanum then (ch.toLower :: acc.1, false)
    else if acc.2 then acc
    else ('-' :: acc.1, true)
  let out := (input.data.foldl step ([], false)).1.reverse
  ⟨((out.dropWhile fun c => c == '-').reverse.dropWhile fun c => c == '-').reverse⟩

/-- `SnapshotOutcome` (snapshot.rs:6). -/
structure SnapshotOutcome where
  source_path : String
  archive_path : String
  bytes : Nat
deriving DecidableEq, Repr

/-- `write_snapshot` (snapshot.rs:88): read the source verbatim and copy it to
`raw/<slug>-<epoch>.<ext>` under the archives directory; `epoch_seconds_string`
is passed in as `stamp`. -/
def write_snapshot (fs : FileSys) (archives_dir source_path : String)
    (stamp : Nat) : Except String (FileSys × SnapshotOutcome) :=
  match fsLookup fs source_path with
  | none => .error "failed to read source session"
  | some raw =>
    let ext := match pathExtension source_path with
      | some e => if strIsEmpty (strTrim e) then "json" else e
      | none => "json"
    let source_stem := (pathFileStem source_path).getD "session"
    let slug := sanitize_slug source_stem
    let filename :=
      if strIsEmpty slug then "snapshot-" ++ toString stamp ++ "." ++ ext
      else slug ++ "-" ++ toString stamp ++ "." ++ ext
    let archive_path := archives_dir ++ "/raw/" ++ filename
    .ok (fsWrite fs archive_path raw,
         { source_path := source_path, archive_path := archive_path,
           bytes := raw.data.length })

/-- `archive_and_index` (archive.rs:903).  `hash` models SHA-256 over file
bytes; `now` models `epoch_now()`; `proj` models the outcome of
`write_archive_projection` (the rendered markdown and its
`filtered_noise_count` on success, `none` on failure, in which case the
pipeline continues with no projection); `index_ok` models whether
`qmd::collection_add_or_update` succeeded. -/
def archive_and_index (hash : String → String) (st : FsState)
    (archives_dir source_path collection_name : String) (now : Nat)
    (proj : Option (String × Nat)) (index_ok : Bool) :
    Except String (FsState × ArchivePipelineOutcome) :=
  match fsLookup st.files source_path with
  | none => .error "failed to read source"
  | some srcBytes =>
    let source_hash := hash srcBytes
    match st.ledger.find? fun r =>
        r.content_hash == source_hash && r.source_path == source_path with
    | some record => .ok (st, { record := record, deduped := true })
    | none =>
      match write_snapshot st.files archives_dir source_path now with
      | .error e => .error e
      | .ok (files1, snap) =>
        match fsLookup files1 snap.archive_path with
        | none => .error "failed to read archive"
        | some archived =>
          let archive_hash := hash archived
          let session_id := (pathFileStem source_path).getD "session"
          let projOut : FileSys × Option String × Option Nat :=
            match proj with
            | some pc =>
              let ppath := projection_path_for_archive_path snap.archive_path
              (fsWrite files1 ppath pc.1, some ppath, some pc.2)
            | none => (files1, none, none)
          let indexed := projOut.2.1.isSome && index_ok
          let record : ArchiveRecord :=
            { session_id := session_id
              source_path := snap.source_path
              archive_path := snap.archive_path
              projection_path := projOut.2.1
              projection_filtered_noise_count := projOut.2.2
              content_hash := archive_hash
              created_at_epoch_secs := now
              indexed_collection := collection_name
              indexed := indexed }
          .ok ({ files := projOut.1, ledger := st.ledger ++ [record] },
               { record := record, deduped := false })

/-! ## Retention GC (watcher.rs:125, archive.rs:878, channel_archive_map.rs:89) -/

/-- Generic association-list lookup (`BTreeMap::get`). -/
def lookupKey {β : Type} : List (String × β) → String → Option β
  | [], _ => none
  | kv :: rest, k => if kv.1 = k then some kv.2 else lookupKey rest k

/-- `remove_by_archive_paths` (channel_archive_map.rs:89): retain map entries
whose `archive_path` is outside the purge set; report how many were
dropped. -/
def remove_by_archive_paths (m : List (String × ChannelArchiveRecord))
    (purge : List String) : List (String × ChannelArchiveRecord) × Nat :=
  if purge.isEmpty then (m, 0)
  else
    let kept := m.filter fun kv => !(purge.contains kv.2.archive_path)
    (kept, m.length - kept.length)

/-- `remove_ledger_records` (archive.rs:878): drop ledger records whose
`archive_path` is in the purge set; report how many were dropped. -/
def remove_ledger_records (ledger : List ArchiveRecord)
    (purge : List String) : List ArchiveRecord × Nat :=
  if purge.isEmpty then (ledger, 0)
  else
    let kept := ledger.filter fun r => !(purge.contains r.archive_path)
    (kept, ledger.length - kept.length)

/-- The external state retention works on: the file system (for archive
deletion), whether a delete of an existing file succeeds, the parsed channel
map and ledger, and whether the bulk `qmd::update` succeeds. -/
structure RetentionEnv where
  fs : FileSys
  removeOk : String → Bool
  channel_map : List (String × ChannelArchiveRecord)
  ledger : List ArchiveRecord
  qmd_update_ok : Bool

/-- Accumulator of the candidate loop in
`cleanup_expired_distilled_archives`. -/
structure RetentionAcc where
  fs : FileSys
  distilled : List (String × Nat)
  purge : List String
  removed : Nat
  missing : Nat
  failed : Nat
deriving DecidableEq, Repr

/-- One iteration of the candidate loop (watcher.rs:147): skip entries inside
the grace window; delete existing files (a failed delete only counts
`failed`); purge and drop from `distilled_archives` exactly when the file was
deleted or already missing. -/
def cleanup_step (removeOk : String → Bool) (now grace_secs : Nat)
    (acc : RetentionAcc) (cand : String × Nat) : RetentionAcc :=
  if now - cand.2 < grace_secs then acc
  else if (fsLookup acc.fs cand.1).isSome then
    if removeOk cand.1 then
      { acc with
        fs := fsRemove acc.fs cand.1
        distilled := acc.distilled.filter fun kv => !(kv.1 == cand.1)
        purge := acc.purge ++ [cand.1]
        removed := acc.removed + 1 }
    else { acc with failed := acc.failed + 1 }
  else
    { acc with
      distilled := acc.distilled.filter fun kv => !(kv.1 == cand.1)
      purge := acc.purge ++ [cand.1]
      missing := acc.missing + 1 }

/-- Result of `cleanup_expired_distilled_archives`: the updated state and
external stores, plus the audit summary (`none` when nothing happened). -/
structure RetentionResult where
  state : MoonState
  fs : FileSys
  channel_map : List (String × ChannelArchiveRecord)
  ledger : List ArchiveRecord
  summary : Option String

/-- `cleanup_expired_distilled_archives` (watcher.rs:125). -/
def cleanup_expired_distilled_archives (env : RetentionEnv) (state : MoonState)
    (now_epoch_secs grace_hours : Nat) : RetentionResult :=
  let grace_secs := grace_hours * 3600
  if grace_secs = 0 then
    { state := state, fs := env.fs, channel_map := env.channel_map,
      ledger := env.ledger, summary := some "skipped reason=grace-disabled" }
  else
    let candidates := state.distilled_archives
    let acc0 : RetentionAcc :=
      { fs := env.fs, distilled := state.distilled_archives, purge := [],
        removed := 0, missing := 0, failed := 0 }
    let acc := candidates.foldl (cleanup_step env.removeOk now_epoch_secs grace_secs) acc0
    let state' := { state with distilled_archives := acc.distilled }
    if acc.purge.isEmpty ∧ acc.failed = 0 then
      { state := state', fs := acc.fs, channel_map := env.channel_map,
        ledger := env.ledger, summary := none }
    else
      let mapOut := remove_by_archive_paths env.channel_map acc.purge
      let ledgerOut := remove_ledger_records env.ledger acc.purge
      let qmd_updated := if !acc.purge.isEmpty then env.qmd_update_ok else false
      { state := state', fs := acc.fs, channel_map := mapOut.1,
        ledger := ledgerOut.1,
        summary := some ("grace_hours=" ++ toString grace_hours ++
          " removed=" ++ toString acc.removed ++
          " missing=" ++ toString acc.missing ++
          " failed=" ++ toString acc.failed ++
          " map_removed=" ++ toString mapOut.2 ++
          " ledger_removed=" ++ toString ledgerOut.2 ++
          " qmd_updated=" ++ toString qmd_updated) }

/-! ## Idle distillation selection (watcher.rs:469-535) -/

/-- `is_cooldown_ready` (watcher.rs:70); saturating `u64` subtraction. -/
def is_cooldown_ready (last_epoch : Option Nat) (now_epoch cooldown_secs : Nat) : Bool :=
  match last_epoch with
  | none => true
  | some last => decide (cooldown_secs ≤ now_epoch - last)

/-- `is_compaction_channel_session` (watcher.rs:66). -/
def is_compaction_channel_session (session_id : String) : Bool :=
  strContains session_id ":discord:channel:" || strContains session_id ":whatsapp:"

/-- Stable insertion used to model `Vec::sort_by_key` (ascending
`created_at_epoch_secs`, later elements after equal keys). -/
def insert_by_created (r : ArchiveRecord) : List ArchiveRecord → List ArchiveRecord
  | [] => [r]
  | x :: xs =>
    if x.created_at_epoch_secs ≤ r.created_at_epoch_secs then
      x :: insert_by_created r xs
    else r :: x :: xs

/-- `ledger.sort_by_key(|r| r.created_at_epoch_secs)` (watcher.rs:504). -/
def sort_by_created (l : List ArchiveRecord) : List ArchiveRecord :=
  l.foldl (fun acc r => insert_by_created r acc) []

/-- `ledger.iter().map(|r| r.created_at_epoch_secs).max().unwrap_or(0)`
(watcher.rs:490). -/
def latest_created (ledger : List ArchiveRecord) : Nat :=
  (ledger.map fun r => r.created_at_epoch_secs).foldl Nat.max 0

/-- The three per-record guards of the candidate loop (watcher.rs:505-514):
indexed, not yet distilled, and present on disk. -/
def distill_pred (distilled : List (String × Nat)) (archive_exists : String → Bool)
    (r : ArchiveRecord) : Bool :=
  r.indexed && !(lookupKey distilled r.archive_path).isSome &&
    archive_exists r.archive_path

/-- The candidate loop of watcher.rs:505-519: walk the sorted ledger, skip
non-indexed, already-distilled, or missing archives, push the rest and stop
once `max_per_cycle` candidates are collected. -/
def distill_pick (distilled : List (String × Nat)) (archive_exists : String → Bool)
    (cap : Nat) (acc : List ArchiveRecord) :
    List ArchiveRecord → List ArchiveRecord
  | [] => acc.reverse
  | r :: rest =>
    if !r.indexed then distill_pick distilled archive_exists cap acc rest
    else if (lookupKey distilled r.archive_path).isSome then
      distill_pick distilled archive_exists cap acc rest
    else if !(archive_exists r.archive_path) then
      distill_pick distilled archive_exists cap acc rest
    else
      let acc' := r :: acc
      if cap ≤ acc'.length then acc'.reverse
      else distill_pick distilled archive_exists cap acc' rest

/-- The distillation-step candidate selection of `run_once`
(watcher.rs:469-535): returns `(distill_candidates, distill_notes)`. -/
def distill_selection (cfg : MoonConfig) (state : MoonState)
    (usage : SessionUsageSnapshot) (compaction_targets : List SessionUsageSnapshot)
    (ledger_result : Except String (List ArchiveRecord))
    (archive_exists : String → Bool) : List ArchiveRecord × List String :=
  if cfg.distill.mode == "idle" then
    if !compaction_targets.isEmpty then ([], ["skipped reason=compaction-active"])
    else if !(is_cooldown_ready state.last_distill_trigger_epoch_secs
        usage.captured_at_epoch_secs cfg.watcher.cooldown_secs) then
      ([], ["skipped reason=cooldown"])
    else
      match ledger_result with
      | .error e => ([], ["skipped reason=ledger-read-failed error=" ++ e])
      | .ok ledger =>
        if ledger.isEmpty then ([], ["skipped reason=no-archives"])
        else
          let idle_for := usage.captured_at_epoch_secs - latest_created ledger
          if idle_for < cfg.distill.idle_secs then
            ([], ["skipped reason=not-idle"])
          else
            let cands := distill_pick state.distilled_archives archive_exists
              cfg.distill.max_per_cycle [] (sort_by_created ledger)
            if cands.isEmpty then
              ([], ["skipped reason=no-undistilled-archives"])
            else (cands, [])
  else ([], ["skipped reason=manual-mode"])

/-- A concrete ledger record for the C4 scenarios. -/
def c4_record (p : String) : ArchiveRecord :=
  { session_id := "s", source_path := "/s/a.json", archive_path := p,
    projection_path := some "/arch/mlib/a.md", projection_filtered_noise_count := none,
    content_hash := "h", created_at_epoch_secs := 1, indexed_collection := "history",
    indexed := true }

/-- C4 counterexample environment: the expired archive exists but its
deletion fails. -/
def c4_bad_env : RetentionEnv :=
  { fs := [("/arch/raw/expired.json", "bytes")]
    removeOk := fun _ => false
    channel_map := [("agent:main:discord:channel:1",
      { channel_key := "agent:main:discord:channel:1", source_path := "/s/a.json",
        archive_path := "/arch/raw/expired.json", updated_at_epoch_secs := 1 })]
    ledger := [c4_record "/arch/raw/expired.json"]
    qmd_update_ok := true }

/-- C4 counterexample state: one expired distilled archive. -/
def c4_state : MoonState :=
  { last_heartbeat_epoch_secs := 0, last_archive_trigger_epoch_secs := none,
    last_compaction_trigger_epoch_secs := none,
    last_distill_trigger_epoch_secs := none, last_session_id := none,
    last_usage_ratio := none, last_provider := none,
    distilled_archives := [("/arch/raw/expired.json", 1)] }

/-- C4 witness environment: same, but the delete succeeds. -/
def c4_good_env : RetentionEnv :=
  { c4_bad_env with removeOk := fun _ => true }

/-- A concrete configuration used by witness instances. -/
def sample_config : MoonConfig :=
  { thresholds := { trigger_ratio := 17/20, compaction_ratio := 17/20 }
    watcher := { poll_interval_secs := 30, cooldown_secs := 300 }
    inbound_watch := { enabled := true, recursive := true, watch_paths := [],
                       event_mode := "now" }
    distill := { mode := "manual", idle_secs := 360, max_per_cycle := 1,
                 residential_timezone := "UTC", topic_discovery := false,
                 archive_grace_hours := 60 }
    retention := { active_days := 7, warm_days := 30, cold_days := 31 } }

/-- A concrete default state used by witness instances. -/
def sample_state : MoonState :=
  { last_heartbeat_epoch_secs := 0, last_archive_trigger_epoch_secs := none,
    last_compaction_trigger_epoch_secs := none,
    last_distill_trigger_epoch_secs := none, last_session_id := none,
    last_usage_ratio := none, last_provider := none, distilled_archives := [] }

/-- A concrete high-usage snapshot used by witness instances. -/
def sample_usage : SessionUsageSnapshot :=
  { session_id := "s", used_tokens := 95, max_tokens := 100,
    usage_ratio := 19/20, captured_at_epoch_secs := 1000, provider := "t" }

/-! ## The watcher cycle (watcher.rs:188-624)

`run_once` is modelled as a function of a `WatcherEnv` collecting the results
of its external calls.  It returns the ordered list of audit events it
emitted, the state it saved (`none` when the cycle aborted before
`save`), and the error it propagated, if any: a `?` in the source
corresponds to filling the `error` field and stopping. -/

/-- `InboundWatchOutcome` (inbound_watch.rs), as read by the cycle. -/
structure InboundWatchOutcome where
  detected_files : Nat
  triggered_events : Nat
  failed_events : Nat
  watched_paths : List String
deriving DecidableEq, Repr

/-- Results of the external calls a cycle makes, in source order. -/
structure WatcherEnv where
  cfg_result : Except String MoonConfig
  state_result : Except String MoonState
  inbound_result : Except String InboundWatchOutcome
  usage_result : Except String SessionUsageSnapshot
  openclaw_usages_result : Except String (List SessionUsageSnapshot)
  session_source_map_result : Except String (List (String × String))
  latest_session_result : Except String (Option String)
  archive_result : String → Except String ArchivePipelineOutcome
  upsert_result : String → Except String ChannelArchiveRecord
  gateway_compact_result : String → Except String String
  audit_ok : Bool
  ledger_read_ok : Bool
  retention : RetentionEnv
  distill_result : String → Except String Unit
  save_ok : Bool

/-- Outcome of one modelled cycle. -/
structure RunResult where
  events : List String
  final_state : Option MoonState
  error : Option String
deriving DecidableEq, Repr

/-- `BTreeMap::insert` on `distilled_archives`. -/
def distilled_insert : List (String × Nat) → String → Nat → List (String × Nat)
  | [], k, v => [(k, v)]
  | kv :: rest, k, v =>
    if kv.1 = k then (k, v) :: rest else kv :: distilled_insert rest k v

/-- The per-target compaction loop (watcher.rs:324-442).  Failures of the
source lookup, the archive call, the index, the channel-map upsert and the
compact RPC are caught and recorded; only a failed audit append aborts. -/
def compaction_loop (env : WatcherEnv) (source_map : List (String × String)) :
    List SessionUsageSnapshot → List String → Nat → Nat → List String →
    (List String → Nat → Nat → List String → RunResult) → RunResult
  | [], ev, s, f, outs, k => k ev s f outs
  | t :: rest, ev, s, f, outs, k =>
    match lookupKey source_map t.session_id with
    | none =>
      compaction_loop env source_map rest ev s (f + 1)
        (outs ++ ["failed key=" ++ t.session_id ++
          " reason=archive-source-not-found"]) k
    | some source_path =>
      match env.archive_result source_path with
      | .error e =>
        compaction_loop env source_map rest ev s (f + 1)
          (outs ++ ["failed key=" ++ t.session_id ++
            " reason=archive-failed error=" ++ e]) k
      | .ok archived =>
        if env.audit_ok then
          let ev1 := ev ++ ["archive:" ++
            (if archived.record.indexed then "ok" else "degraded")]
          if !archived.record.indexed then
            compaction_loop env source_map rest ev1 s (f + 1)
              (outs ++ ["failed key=" ++ t.session_id ++
                " reason=index-failed"]) k
          else
            match env.upsert_result t.session_id with
            | .error e =>
              compaction_loop env source_map rest ev1 s (f + 1)
                (outs ++ ["failed key=" ++ t.session_id ++
                  " reason=channel-archive-map-failed error=" ++ e]) k
            | .ok mapped =>
              match env.gateway_compact_result t.session_id with
              | .ok summary =>
                if env.audit_ok then
                  compaction_loop env source_map rest
                    (ev1 ++ ["compaction:ok"]) (s + 1) f
                    (outs ++ ["ok key=" ++ t.session_id ++ " archived=" ++
                      mapped.archive_path ++ " " ++ summary]) k
                else { events := ev1, final_state := none,
                       error := some "audit append failed" }
              | .error e =>
                if env.audit_ok then
                  compaction_loop env source_map rest
                    (ev1 ++ ["compaction:degraded"]) s (f + 1)
                    (outs ++ ["failed key=" ++ t.session_id ++ " archived=" ++
                      mapped.archive_path ++ " error=" ++ e]) k
                else { events := ev1, final_state := none,
                       error := some "audit append failed" }
        else { events := ev, final_state := none,
               error := some "audit append failed" }

/-- The per-candidate distillation loop (watcher.rs:537-585): a failed
`run_distillation` only downgrades the audit status. -/
def distill_loop (env : WatcherEnv) (now : Nat) :
    List ArchiveRecord → List String → MoonState →
    (List String → MoonState → RunResult) → RunResult
  | [], ev, st, k => k ev st
  | r :: rest, ev, st, k =>
    match env.distill_result r.archive_path with
    | .ok _ =>
      let st1 := { st with
        last_distill_trigger_epoch_secs := some now
        distilled_archives := distilled_insert st.distilled_archives
          r.archive_path now }
      if env.audit_ok then distill_loop env now rest (ev ++ ["distill:ok"]) st1 k
      else { events := ev, final_state := none,
             error := some "audit append failed" }
    | .error _ =>
      if env.audit_ok then
        distill_loop env now rest (ev ++ ["distill:degraded"]) st k
      else { events := ev, final_state := none,
             error := some "audit append failed" }

/-- The heartbeat stamping of watcher.rs:195-198. -/
def heartbeat_state (state0 : MoonState) (usage : SessionUsageSnapshot) : MoonState :=
  { state0 with
    last_heartbeat_epoch_secs := usage.captured_at_epoch_secs
    last_session_id := some usage.session_id
    last_usage_ratio := some usage.usage_ratio
    last_provider := some usage.provider }

/-- Retention step followed by the final state save (watcher.rs:587-602). -/
def retention_and_save (env : WatcherEnv) (cfg : MoonConfig) (now : Nat)
    (ev : List String) (st : MoonState) : RunResult :=
  let res := cleanup_expired_distilled_archives env.retention st now
    cfg.distill.archive_grace_hours
  match res.summary with
  | some summary =>
    if env.audit_ok then
      (if env.save_ok then
        { events := (ev ++ ["archive-retention:" ++
            (if strContains summary "failed=" &&
                !(strContains summary "failed=0") then "degraded" else "ok")]) ++
            ["state-saved"],
          final_state := some res.state, error := none }
       else
        { events := ev ++ ["archive-retention:" ++
            (if strContains summary "failed=" &&
                !(strContains summary "failed=0") then "degraded" else "ok")],
          final_state := none, error := some "failed to save state" })
    else { events := ev, final_state := none,
           error := some "audit append failed" }
  | none =>
    if env.save_ok then
      { events := ev ++ ["state-saved"], final_state := some res.state,
        error := none }
    else { events := ev, final_state := none,
           error := some "failed to save state" }

/-- Dispatch on the distillation selection (watcher.rs:537-585): run the
loop over the candidates, or audit the skip notes, then retention and
save. -/
def distill_dispatch (env : WatcherEnv) (cfg : MoonConfig)
    (usage : SessionUsageSnapshot) (sel : List ArchiveRecord × List String)
    (ev : List String) (st : MoonState) : RunResult :=
  if !sel.1.isEmpty then
    distill_loop env usage.captured_at_epoch_secs sel.1 ev st
      (retention_and_save env cfg usage.captured_at_epoch_secs)
  else if !sel.2.isEmpty then
    (if env.audit_ok then
      retention_and_save env cfg usage.captured_at_epoch_secs
        (ev ++ ["distill:skipped"]) st
     else { events := ev, final_state := none,
            error := some "audit append failed" })
  else retention_and_save env cfg usage.captured_at_epoch_secs ev st

/-- Distillation step (watcher.rs:469-585) followed by retention and save. -/
def finish_step (env : WatcherEnv) (cfg : MoonConfig)
    (usage : SessionUsageSnapshot) (compaction_targets : List SessionUsageSnapshot)
    (ev : List String) (st : MoonState) : RunResult :=
  distill_dispatch env cfg usage
    (distill_selection cfg st usage compaction_targets
      (if env.ledger_read_ok then .ok env.retention.ledger
       else .error "ledger read failed")
      (fun p => (fsLookup env.retention.fs p).isSome))
    ev st

/-- Compaction step (watcher.rs:306-467) followed by the remaining cycle. -/
def compaction_step_fn (env : WatcherEnv) (cfg : MoonConfig)
    (usage : SessionUsageSnapshot) (compaction_targets : List SessionUsageSnapshot)
    (source_map : List (String × String)) (notes : List String)
    (cooldown_ready : Bool) (ev : List String) (st : MoonState) : RunResult :=
  if !compaction_targets.isEmpty && !cooldown_ready then
    (if env.audit_ok then
      finish_step env cfg usage compaction_targets
        (ev ++ ["compaction:skipped"]) st
     else { events := ev, final_state := none,
            error := some "audit append failed" })
  else if !compaction_targets.isEmpty then
    let st1 := { st with
      last_compaction_trigger_epoch_secs := some usage.captured_at_epoch_secs }
    compaction_loop env source_map compaction_targets ev 0 0
      (notes.map fun n => "note=" ++ n)
      (fun ev _ f _ =>
        if env.audit_ok then
          finish_step env cfg usage compaction_targets
            (ev ++ ["compaction:" ++ (if 0 < f then "degraded" else "ok")]) st1
        else { events := ev, final_state := none,
               error := some "audit append failed" })
  else if !notes.isEmpty then
    (if env.audit_ok then
      finish_step env cfg usage compaction_targets
        (ev ++ ["compaction:degraded"]) st
     else { events := ev, final_state := none,
            error := some "audit append failed" })
  else finish_step env cfg usage compaction_targets ev st

/-- Archive step (watcher.rs:47-64 and 288-304) followed by the remaining
cycle.  `run_archive_if_needed` bails when no qualifying source session file
exists, and `run_once` propagates that error with `?`. -/
def archive_step_fn (env : WatcherEnv) (cfg : MoonConfig)
    (usage : SessionUsageSnapshot) (triggers : List TriggerKind)
    (compaction_targets : List SessionUsageSnapshot)
    (source_map : List (String × String)) (notes : List String)
    (cooldown_ready : Bool) (ev : List String) (st : MoonState) : RunResult :=
  if triggers.any fun t => match t with
      | TriggerKind.Archive => true
      | TriggerKind.Compaction => false then
    match env.latest_session_result with
    | .error e => { events := ev, final_state := none, error := some e }
    | .ok none =>
      { events := ev, final_state := none,
        error := some "no source session file found in openclaw sessions dir" }
    | .ok (some src) =>
      match env.archive_result src with
      | .error e => { events := ev, final_state := none, error := some e }
      | .ok out =>
        let st1 := { st with
          last_archive_trigger_epoch_secs := some usage.captured_at_epoch_secs }
        if env.audit_ok then
          compaction_step_fn env cfg usage compaction_targets source_map notes
            cooldown_ready
            (ev ++ ["archive:" ++
              (if out.record.indexed then "ok" else "degraded")]) st1
        else { events := ev, final_state := none,
               error := some "audit append failed" }
  else compaction_step_fn env cfg usage compaction_targets source_map notes
    cooldown_ready ev st

/-- The compaction target scan of watcher.rs:220-247. -/
def compaction_scan (env : WatcherEnv) (cfg : MoonConfig)
    (usage : SessionUsageSnapshot) : List SessionUsageSnapshot × List String :=
  if usage.provider == "openclaw" then
    match env.openclaw_usages_result with
    | .ok snapshots =>
      (snapshots.filter fun s => is_compaction_channel_session s.session_id &&
        decide (cfg.thresholds.compaction_ratio ≤ s.usage_ratio), [])
    | .error e =>
      (if decide (cfg.thresholds.compaction_ratio ≤ usage.usage_ratio) &&
          is_compaction_channel_session usage.session_id
       then [usage] else [],
       ["scan failed: " ++ e])
  else
    (if decide (cfg.thresholds.compaction_ratio ≤ usage.usage_ratio) &&
        is_compaction_channel_session usage.session_id
     then [usage] else [], [])

/-- `run_once` (watcher.rs:188): load config and state, process inbound,
stamp the heartbeat, evaluate triggers, emit the leading audit rows, then run
archive → compaction → distillation → retention → save. -/
def run_once (env : WatcherEnv) : RunResult :=
  match env.cfg_result with
  | .error e => { events := [], final_state := none, error := some e }
  | .ok cfg =>
  match env.state_result with
  | .error e => { events := [], final_state := none, error := some e }
  | .ok state0 =>
  match env.inbound_result with
  | .error e => { events := [], final_state := none, error := some e }
  | .ok inbound =>
  match env.usage_result with
  | .error e => { events := [], final_state := none, error := some e }
  | .ok usage =>
  let state1 := heartbeat_state state0 usage
  let triggers := evaluate cfg state1 usage
  let cooldown_ready := is_cooldown_ready
    state1.last_compaction_trigger_epoch_secs usage.captured_at_epoch_secs
    cfg.watcher.cooldown_secs
  let tn := compaction_scan env cfg usage
  let smn : List (String × String) × List String :=
    if !tn.1.isEmpty then
      match env.session_source_map_result with
      | .ok m => (m, tn.2)
      | .error e => ([], tn.2 ++ ["source_map failed: " ++ e])
    else ([], tn.2)
  let pre2 : List String → RunResult := fun ev =>
    if inbound.detected_files > 0 || inbound.failed_events > 0 then
      (if env.audit_ok then
        archive_step_fn env cfg usage triggers tn.1 smn.1 smn.2 cooldown_ready
          (ev ++ ["inbound_watch:" ++
            (if inbound.failed_events == 0 then "ok" else "degraded")]) state1
       else { events := ev, final_state := none,
              error := some "audit append failed" })
    else archive_step_fn env cfg usage triggers tn.1 smn.1 smn.2
      cooldown_ready ev state1
  if !triggers.isEmpty then
    (if env.audit_ok then pre2 ["watcher:triggered"]
     else { events := [], final_state := none,
            error := some "audit append failed" })
  else pre2 []

/-- A trigger ratio of 17/20 in reduced form (kernel-evaluable). -/
def ratio_17_20 : Rat := ⟨17, 20, by norm_num, by norm_num⟩

/-- A usage ratio of 19/20 in reduced form (kernel-evaluable). -/
def ratio_19_20 : Rat := ⟨19, 20, by norm_num, by norm_num⟩

/-- Configuration for the C3 scenarios, with kernel-evaluable ratios. -/
def c3_cfg : MoonConfig :=
  { thresholds := { trigger_ratio := ratio_17_20, compaction_ratio := ratio_17_20 }
    watcher := { poll_interval_secs := 30, cooldown_secs := 300 }
    inbound_watch := { enabled := true, recursive := true, watch_paths := [],
                       event_mode := "now" }
    distill := { mode := "manual", idle_secs := 360, max_per_cycle := 1,
                 residential_timezone := "UTC", topic_discovery := false,
                 archive_grace_hours := 60 }
    retention := { active_days := 7, warm_days := 30, cold_days := 31 } }

/-- High usage snapshot for the C3 scenarios (kernel-evaluable ratio). -/
def c3_usage : SessionUsageSnapshot :=
  { session_id := "s", used_tokens := 95, max_tokens := 100,
    usage_ratio := ratio_19_20, captured_at_epoch_secs := 1000, provider := "t" }

/-- An empty retention environment. -/
def c3_retention : RetentionEnv :=
  { fs := [], removeOk := fun _ => true, channel_map := [], ledger := [],
    qmd_update_ok := true }

/-- C3 counterexample environment: both triggers fire but the sessions
directory holds no qualifying source file; everything else succeeds. -/
def c3_env : WatcherEnv :=
  { cfg_result := .ok c3_cfg
    state_result := .ok sample_state
    inbound_result := .ok { detected_files := 0, triggered_events := 0,
                            failed_events := 0, watched_paths := [] }
    usage_result := .ok c3_usage
    openclaw_usages_result := .ok []
    session_source_map_result := .ok []
    latest_session_result := .ok none
    archive_result := fun _ => .error "unused"
    upsert_result := fun _ => .error "unused"
    gateway_compact_result := fun _ => .error "unused"
    audit_ok := true
    ledger_read_ok := true
    retention := c3_retention
    distill_result := fun _ => .ok ()
    save_ok := true }

/-- Usage snapshot for the C3 witness: a channel-shaped session at full
usage. -/
def c3_good_usage : SessionUsageSnapshot :=
  { session_id := "agent:main:discord:channel:9", used_tokens := 100,
    max_tokens := 100, usage_ratio := 1, captured_at_epoch_secs := 1000,
    provider := "t" }

/-- Ledger record produced by the archive step in the C3 witness. -/
def c3_archive_record : ArchiveRecord :=
  { session_id := "a", source_path := "/s/a.json",
    archive_path := "/arch/raw/a.json", projection_path := some "/arch/mlib/a.md",
    projection_filtered_noise_count := none, content_hash := "h",
    created_at_epoch_secs := 900, indexed_collection := "history",
    indexed := true }

/-- Archive outcome returned by the C3 witness environment. -/
def c3_archive_outcome : ArchivePipelineOutcome :=
  { record := c3_archive_record, deduped := false }

/-- C3 witness environment: the archive step succeeds, but the compaction
target's transcript cannot be resolved and distillation would fail — both
failures must be tolerated. -/
def c3_good_env : WatcherEnv :=
  { c3_env with
    usage_result := .ok c3_good_usage
    latest_session_result := .ok (some "/s/a.json")
    archive_result := fun _ => .ok c3_archive_outcome
    distill_result := fun _ => .error "llm failed" }

/-- An old, indexed, undistilled ledger record (C5 scenarios). -/
def c5_old_record : ArchiveRecord :=
  { session_id := "old", source_path := "/s/old.json",
    archive_path := "/arch/raw/old.json", projection_path := some "/arch/mlib/old.md",
    projection_filtered_noise_count := none, content_hash := "ho",
    created_at_epoch_secs := 0, indexed_collection := "history", indexed := true }

/-- A fresh ledger record, newer than the idle window (C5 scenarios). -/
def c5_new_record : ArchiveRecord :=
  { session_id := "new", source_path := "/s/new.json",
    archive_path := "/arch/raw/new.json", projection_path := some "/arch/mlib/new.md",
    projection_filtered_noise_count := none, content_hash := "hn",
    created_at_epoch_secs := 1000, indexed_collection := "history", indexed := true }

/-- C5 configuration: idle mode, 100 s idle window, one candidate per cycle. -/
def c5_cfg : MoonConfig :=
  { sample_config with
    distill := { sample_config.distill with mode := "idle", idle_secs := 100 } }

/-- C5 usage snapshot captured 50 s after the newest archive. -/
def c5_usage : SessionUsageSnapshot :=
  { sample_usage with captured_at_epoch_secs := 1050 }

/-- C5 file-existence oracle: every archive is present. -/
def c5_exists : String → Bool := fun _ => true

/-- A concrete snapshot produced by the compaction scan from a zero-max
payload, used by the C8 witness. -/
def sample_scan_snapshot : SessionUsageSnapshot :=
  { session_id := "s1", used_tokens := 7, max_tokens := 1,
    usage_ratio := usage_ratio_of 7 1, captured_at_epoch_secs := 42,
    provider := "openclaw" }

instance : Inhabited FsState := ⟨{ files := [], ledger := [] }⟩

/-- A deterministic stand-in for SHA-256 used by witness instances. -/
def c1_hash : String → String := fun s => "h" ++ s

/-- Initial file system for the C1 witness: one source session file. -/
def c1_state0 : FsState := { files := [("/s/a.json", "xyz")], ledger := [] }

/-- The result of the first `archive_and_index` call of the C1 witness. -/
def c1_first : FsState × ArchivePipelineOutcome :=
  match archive_and_index c1_hash c1_state0 "/arch" "/s/a.json" "history" 100
      (some ("proj", 2)) true with
  | .ok r => r
  | .error _ => default

/-- Retention outcome of the C4 counterexample run (delete fails). -/
def c4_bad_res : RetentionResult :=
  cleanup_expired_distilled_archives c4_bad_env c4_state 1000000 1

/-- Retention outcome of the C4 witness run (delete succeeds). -/
def c4_good_res : RetentionResult :=
  cleanup_expired_distilled_archives c4_good_env c4_state 1000000 1

/-! ## Configuration loading (config.rs) -/

/-- The process environment as an association list: `env::var(k)` is
`envLookup env k` (`none` models `Err(VarError::NotPresent)`). -/
abbrev EnvMap : Type := List (String × String)

/-- `env::var`. -/
def envLookup (env : EnvMap) (k : String) : Option String := lookupKey env k

namespace Cfg

/-- `MoonThresholds` exactly as config.rs declares it. -/
structure MoonThresholds where
  trigger_ratio : Rat
deriving DecidableEq, Repr

/-- `MoonDistillConfig` exactly as config.rs declares it. -/
structure MoonDistillConfig where
  mode : String
  idle_secs : Nat
  max_per_cycle : Nat
  residential_timezone : String
  topic_discovery : Bool
deriving DecidableEq, Repr

/-- `MoonConfig` exactly as config.rs declares it (the watcher, inbound-watch
and retention sections coincide with the shared model above). -/
structure MoonConfig where
  thresholds : MoonThresholds
  watcher : MoonWatcherConfig
  inbound_watch : MoonInboundWatchConfig
  retention : MoonRetentionConfig
  distill : MoonDistillConfig
deriving DecidableEq, Repr

/-- The `Default` impls of config.rs, composed for `MoonConfig::default()`. -/
def configDefault : MoonConfig :=
  { thresholds := { trigger_ratio := ratio_17_20 },
    watcher := { poll_interval_secs := 30, cooldown_secs := 300 },
    inbound_watch := { enabled := true, recursive := true, watch_paths := [],
                       event_mode := "now" },
    retention := { active_days := 7, warm_days := 30, cold_days := 31 },
    distill := { mode := "manual", idle_secs := 360, max_per_cycle := 1,
                 residential_timezone := "UTC", topic_discovery := false } }

/-- `PartialMoonThresholds` (config.rs). -/
structure PartialMoonThresholds where
  trigger_ratio : Option Rat
  archive_ratio : Option Rat
  compaction_ratio : Option Rat
deriving DecidableEq, Repr

/-- `PartialMoonConfig` (config.rs). -/
structure PartialMoonConfig where
  thresholds : Option PartialMoonThresholds
  watcher : Option MoonWatcherConfig
  inbound_watch : Option MoonInboundWatchConfig
  distill : Option MoonDistillConfig
  retention : Option MoonRetentionConfig
deriving DecidableEq, Repr

/-- `env_or_u64`: a set variable whose trimmed value fails `u64` parsing is
silently replaced by the fallback. -/
def env_or_u64 (env : EnvMap) (var : String) (fallback : Nat) : Nat :=
  match envLookup env var with
  | some v => (parseU64 (strTrim v)).getD fallback
  | none => fallback

/-- `env_or_bool`. -/
def env_or_bool (env : EnvMap) (var : String) (fallback : Bool) : Bool :=
  match envLookup env var with
  | some v =>
    if strTrim v = "1" ∨ strTrim v = "true" ∨ strTrim v = "TRUE" ∨
        strTrim v = "yes" ∨ strTrim v = "on" then true
    else if strTrim v = "0" ∨ strTrim v = "false" ∨ strTrim v = "FALSE" ∨
        strTrim v = "no" ∨ strTrim v = "off" then false
    else fallback
  | none => fallback

/-- `env_or_string`. -/
def env_or_string (env : EnvMap) (var : String) (fallback : String) : String :=
  match envLookup env var with
  | some v => if strIsEmpty (strTrim v) then fallback else strTrim v
  | none => fallback

/-- `env_or_csv_paths`. -/
def env_or_csv_paths (env : EnvMap) (var : String) (fallback : List String) :
    List String :=
  match envLookup env var with
  | some v =>
    let out := ((strSplitChar ',' v).map strTrim).filter fun s => !strIsEmpty s
    if out.isEmpty then fallback else out
  | none => fallback

/-- `env_or_f64_first`, parameterised over the `f64` parser `pf` (the one
float-parsing primitive the loader calls). -/
def env_or_f64_first (pf : String → Option Rat) (env : EnvMap) :
    List String → Rat → Rat
  | [], fallback => fallback
  | var :: rest, fallback =>
    match envLookup env var with
    | some v =>
      if strIsEmpty (strTrim v) then env_or_f64_first pf env rest fallback
      else
        match pf (strTrim v) with
        | some parsed => parsed
        | none => env_or_f64_first pf env rest fallback
    | none => env_or_f64_first pf env rest fallback

/-- `merge_file_config` on an already-parsed file (`none` models a missing
config file; read and parse failures are handled in `load_config`). -/
def merge_file_config (base : MoonConfig) : Option PartialMoonConfig → MoonConfig
  | none => base
  | some p =>
    let b0 :=
      match p.thresholds with
      | some t =>
        match (match t.trigger_ratio with
               | some r => some r
               | none =>
                 match t.compaction_ratio with
                 | some r => some r
                 | none => t.archive_ratio) with
        | some r => { base with thresholds := { trigger_ratio := r } }
        | none => base
      | none => base
    let b1 := match p.watcher with
      | some w => { b0 with watcher := w }
      | none => b0
    let b2 := match p.inbound_watch with
      | some iw => { b1 with inbound_watch := iw }
      | none => b1
    let b3 := match p.distill with
      | some d => { b2 with distill := d }
      | none => b2
    match p.retention with
    | some r => { b3 with retention := r }
    | none => b3

/-- The environment-overlay block of `load_config` (config.rs:285-315): each
field is replaced by its `env_or_*` read with the current value as
fallback. -/
def apply_env (pf : String → Option Rat) (env : EnvMap) (cfg : MoonConfig) :
    MoonConfig :=
  { thresholds := {
      trigger_ratio := env_or_f64_first pf env
          ["MOON_TRIGGER_RATIO", "MOON_THRESHOLD_COMPACTION_RATIO",
           "MOON_THRESHOLD_PRUNE_RATIO", "MOON_THRESHOLD_ARCHIVE_RATIO"]
          cfg.thresholds.trigger_ratio },
    watcher := {
      poll_interval_secs :=
        env_or_u64 env "MOON_POLL_INTERVAL_SECS" cfg.watcher.poll_interval_secs,
      cooldown_secs :=
        env_or_u64 env "MOON_COOLDOWN_SECS" cfg.watcher.cooldown_secs },
    inbound_watch := {
      enabled :=
        env_or_bool env "MOON_INBOUND_WATCH_ENABLED" cfg.inbound_watch.enabled,
      recursive :=
        env_or_bool env "MOON_INBOUND_RECURSIVE" cfg.inbound_watch.recursive,
      event_mode :=
        env_or_string env "MOON_INBOUND_EVENT_MODE" cfg.inbound_watch.event_mode,
      watch_paths :=
        env_or_csv_paths env "MOON_INBOUND_WATCH_PATHS" cfg.inbound_watch.watch_paths },
    distill := {
      mode := env_or_string env "MOON_DISTILL_MODE" cfg.distill.mode,
      idle_secs := env_or_u64 env "MOON_DISTILL_IDLE_SECS" cfg.distill.idle_secs,
      max_per_cycle :=
        env_or_u64 env "MOON_DISTILL_MAX_PER_CYCLE" cfg.distill.max_per_cycle,
      residential_timezone :=
        env_or_string env "MOON_RESIDENTIAL_TIMEZONE" cfg.distill.residential_timezone,
      topic_discovery :=
        env_or_bool env "MOON_TOPIC_DISCOVERY" cfg.distill.topic_discovery },
    retention := {
      active_days :=
        env_or_u64 env "MOON_RETENTION_ACTIVE_DAYS" cfg.retention.active_days,
      warm_days := env_or_u64 env "MOON_RETENTION_WARM_DAYS" cfg.retention.warm_days,
      cold_days := env_or_u64 env "MOON_RETENTION_COLD_DAYS" cfg.retention.cold_days } }

/-- `validate` (config.rs:188-226), with the exact error strings. -/
def validate (cfg : MoonConfig) : Except String Unit :=
  if ¬(0 < cfg.thresholds.trigger_ratio ∧ cfg.thresholds.trigger_ratio ≤ 1) then
    Except.error "invalid trigger ratio: require 0 < trigger <= 1.0"
  else if cfg.watcher.poll_interval_secs = 0 then
    Except.error "invalid watcher poll interval: must be >= 1 second"
  else if strIsEmpty (strTrim cfg.inbound_watch.event_mode) then
    Except.error "invalid inbound event mode: cannot be empty"
  else if cfg.distill.mode ≠ "manual" ∧ cfg.distill.mode ≠ "idle" ∧
      cfg.distill.mode ≠ "daily" then
    Except.error "invalid distill mode: use `manual`, `idle`, or `daily`"
  else if cfg.distill.max_per_cycle = 0 then
    Except.error "invalid distill max per cycle: must be >= 1"
  else if cfg.distill.idle_secs = 0 then
    Except.error "invalid distill idle secs: must be >= 1"
  else if cfg.retention.active_days = 0 then
    Except.error "invalid retention active days: must be >= 1"
  else if cfg.retention.warm_days < cfg.retention.active_days then
    Except.error "invalid retention windows: require active_days <= warm_days"
  else if cfg.retention.cold_days ≤ cfg.retention.warm_days then
    Except.error "invalid retention windows: require warm_days < cold_days"
  else Except.ok ()

/-- `load_config` (config.rs:281-319): default, file merge (an `Except.error`
input models a file read or TOML parse failure), environment overlay, then
validation. -/
def load_config (pf : String → Option Rat) (env : EnvMap)
    (file : Except String (Option PartialMoonConfig)) :
    Except String MoonConfig :=
  match file with
  | Except.error e => Except.error e
  | Except.ok pfc =>
    match validate (apply_env pf env (merge_file_config configDefault pfc)) with
    | Except.error e => Except.error e
    | Except.ok _ => Except.ok (apply_env pf env (merge_file_config configDefault pfc))

end Cfg

/-- A float parser whose environment never yields a value (no float-valued
variable is set in the C9 scenarios). -/
def noF64 : String → Option Rat := fun _ => none

/-- C9 counterexample environment: an unparsable poll-interval override. -/
def c9_env : EnvMap := [("MOON_POLL_INTERVAL_SECS", "abc")]

/-- C9 witness environment: parsable overrides for three fields. -/
def c9_w_env : EnvMap :=
  [("MOON_POLL_INTERVAL_SECS", "60"), ("MOON_DISTILL_MAX_PER_CYCLE", "4"),
   ("MOON_DISTILL_MODE", "idle")]

/-- The configuration the C9 witness environment loads to. -/
def c9_w_cfg : Cfg.MoonConfig :=
  { Cfg.configDefault with
    watcher := { poll_interval_secs := 60, cooldown_secs := 300 },
    distill := { mode := "idle", idle_secs := 360, max_per_cycle := 4,
                 residential_timezone := "UTC", topic_discovery := false } }

/-! ## Archive chunk streaming (distill.rs:1432-1483, 476-491) -/

/-- `str::len` of a line: its UTF-8 byte count. -/
def utf8Len (s : String) : Nat :=
  s.data.foldl (fun n c => n + c.utf8Size) 0

/-- `DEFAULT_DISTILL_MAX_CHUNKS` (distill.rs:136). -/
def DEFAULT_DISTILL_MAX_CHUNKS : Nat := 128

/-- `distill_max_chunks` (distill.rs:476-491). -/
def distill_max_chunks (env : EnvMap) : Nat :=
  match envLookup env "MOON_DISTILL_MAX_CHUNKS" with
  | some raw =>
    if strIsEmpty (strTrim raw) then DEFAULT_DISTILL_MAX_CHUNKS
    else
      match parseU64 (strTrim raw) with
      | some v => if 0 < v then v else DEFAULT_DISTILL_MAX_CHUNKS
      | none => DEFAULT_DISTILL_MAX_CHUNKS
  | none => DEFAULT_DISTILL_MAX_CHUNKS

/-- The reader loop of `stream_archive_chunks`, over the file's lines
(`BufReader::split(b'\n')` yields each line without its terminator; a line
costs its byte length plus one).  The emitted chunks are accumulated in
order; the `Nat` is `chunk_count` and the `Bool` is `truncated`. -/
def stream_chunks_loop (target maxc : Nat) :
    List String → String → Nat → Nat → List String →
    List String × Nat × Bool
  | [], current, _, count, acc =>
    if strIsEmpty current then
      if count = 0 then (acc ++ [""], 1, false) else (acc, count, false)
    else (acc ++ [current], count + 1, false)
  | raw :: rest, current, bytes, count, acc =>
    if strIsEmpty current = false ∧ target < bytes + (utf8Len raw + 1) then
      if maxc ≤ count + 1 then (acc ++ [current], count + 1, true)
      else
        stream_chunks_loop target maxc rest (raw ++ "\n") (utf8Len raw + 1)
          (count + 1) (acc ++ [current])
    else
      stream_chunks_loop target maxc rest (current ++ raw ++ "\n")
        (bytes + (utf8Len raw + 1)) count acc

/-- `stream_archive_chunks` (distill.rs:1432-1483) on the file's line list. -/
def stream_archive_chunks (lines : List String)
    (chunk_target_bytes max_chunks : Nat) : List String × Nat × Bool :=
  stream_chunks_loop chunk_target_bytes max_chunks lines "" 0 0 []

/-- Concatenation of a chunk list (for stating that no input is lost). -/
def strConcat : List String → String
  | [] => ""
  | s :: rest => s ++ strConcat rest

/-! ## Distillation sanitisation and fallback (distill.rs:963-1011, 1196-1246) -/

/-- `MAX_CANDIDATE_CHARS` (distill.rs:134). -/
def MAX_CANDIDATE_CHARS : Nat := 512

/-- `MAX_SUMMARY_CHARS` (distill.rs:135). -/
def MAX_SUMMARY_CHARS : Nat := 12000

/-- `MAX_MODEL_LINES` (distill.rs:137). -/
def MAX_MODEL_LINES : Nat := 80

/-- `MIN_MODEL_BULLETS` (distill.rs:138). -/
def MIN_MODEL_BULLETS : Nat := 3

/-- `Vec::join(sep)`. -/
def strJoinSep (sep : String) : List String → String
  | [] => ""
  | [s] => s
  | s :: rest => s ++ sep ++ strJoinSep sep rest

/-- `str::replacen(pat, rep, 1)` on character lists: replace the leftmost
occurrence only. -/
def replaceFirstAux (pat rep : List Char) : List Char → List Char
  | [] => if pat.isPrefixOf ([] : List Char) then rep else []
  | c :: rest =>
    if pat.isPrefixOf (c :: rest) then rep ++ (c :: rest).drop pat.length
    else c :: replaceFirstAux pat rep rest

/-- `str::replacen(pat, rep, 1)`. -/
def strReplaceFirst (s pat rep : String) : String :=
  ⟨replaceFirstAux pat.data rep.data s.data⟩

/-- `truncate_with_ellipsis` (distill.rs:499-515). -/
def truncate_with_ellipsis (input : String) (max_chars : Nat) : String :=
  if strCharCount input ≤ max_chars then input
  else if max_chars ≤ 3 then strTakeChars max_chars "..."
  else strTakeChars (max_chars - 3) input ++ "..."

/-- `unescape_json_noise` (distill.rs:517-523). -/
def unescape_json_noise (input : String) : String :=
  strReplace
    (strReplace (strReplace (strReplace input "\\\\\"" "\"") "\\\\n" "\n")
      "\\\\t" "\t")
    "\\\\\\\\" "\\"

/-- `normalize_text` (distill.rs:525-527). -/
def normalize_text (input : String) : String :=
  strJoinSep " " (strSplitWhitespace input)

/-- `clean_candidate_text` (distill.rs:529-536). -/
def clean_candidate_text (input : String) : Option String :=
  if strIsEmpty (normalize_text (unescape_json_noise input)) then none
  else
    some (truncate_with_ellipsis (normalize_text (unescape_json_noise input))
      MAX_CANDIDATE_CHARS)

/-- `looks_like_json_blob` (distill.rs:538-544). -/
def looks_like_json_blob (input : String) : Bool :=
  strStartsWith (strTrimStart input) "\x7b" ||
    strStartsWith (strTrimStart input) "[" ||
    strContains (strTrimStart input) "\"type\":\"message\"" ||
    strContains (strTrimStart input) "\"message\":\x7b\"role\""

/-- `looks_like_structured_fragment` (distill.rs:890-898). -/
def looks_like_structured_fragment (input : String) : Bool :=
  strStartsWith (strTrim input) "```" ||
    strTrim input == "\x7b" || strTrim input == "\x7d" ||
    strTrim input == "[" || strTrim input == "]" ||
    (strStartsWith (strTrim input) "\"" && strContains (strTrim input) "\":")

/-- The bullet normalisation step of `sanitize_model_summary` (the `#`, `- `,
`* ` and plain-text cases), returning the line to keep and the updated bullet
count. -/
def sanitize_normalize (cleaned : String) (bullets : Nat) : String × Nat :=
  if strStartsWith cleaned "#" then (cleaned, bullets)
  else if strStartsWith cleaned "- " then (cleaned, bullets + 1)
  else if strStartsWith cleaned "* " then
    (strReplaceFirst cleaned "* " "- ", bullets + 1)
  else ("- " ++ cleaned, bullets + 1)

/-- The line loop of `sanitize_model_summary`: skip blank, JSON-shaped,
fragment-shaped and marker lines; `none` models the `?` on
`clean_candidate_text`; stop once `MAX_MODEL_LINES` lines are kept. -/
def sanitize_loop : List String → List String → Nat → Option (List String × Nat)
  | [], lines, bullets => some (lines, bullets)
  | raw :: rest, lines, bullets =>
    if strIsEmpty (strTrim raw) then sanitize_loop rest lines bullets
    else if looks_like_json_blob (strTrim raw) ||
        looks_like_structured_fragment (strTrim raw) ||
        strContains (strTrim raw) "<<<EXTERNAL_UNTRUSTED_CONTENT>>>" then
      sanitize_loop rest lines bullets
    else
      match clean_candidate_text (strTrim raw) with
      | none => none
      | some cleaned =>
        if MAX_MODEL_LINES ≤ (lines ++ [(sanitize_normalize cleaned bullets).1]).length then
          some (lines ++ [(sanitize_normalize cleaned bullets).1],
                (sanitize_normalize cleaned bullets).2)
        else
          sanitize_loop rest (lines ++ [(sanitize_normalize cleaned bullets).1])
            (sanitize_normalize cleaned bullets).2

/-- `sanitize_model_summary` (distill.rs:963-1002). -/
def sanitize_model_summary (summary : String) : Option String :=
  match sanitize_loop (strLines summary) [] 0 with
  | none => none
  | some (lines, bullets) =>
    if bullets < MIN_MODEL_BULLETS then none else some (strJoinSep "\n" lines)

/-- `clamp_summary` (distill.rs:1004-1011). -/
def clamp_summary (summary : String) : String :=
  if strCharCount (strTrimEnd summary) ≤ MAX_SUMMARY_CHARS then strTrimEnd summary
  else
    truncate_with_ellipsis (strTrimEnd summary) MAX_SUMMARY_CHARS ++
      "\n\n[summary truncated]"

/-- `distill_summary` (distill.rs:1196-1246), parameterised over what the IO
boundary returns: the resolved remote provider's label (if a remote is
configured), the remote call's result and the local distiller's result.  The
value is the `(provider_used, clamped summary)` pair. -/
def distill_summary (remote : Option String)
    (remote_result : Except String String)
    (local_result : Except String String) : Except String (String × String) :=
  match remote with
  | some label =>
    match remote_result with
    | Except.ok out =>
      match sanitize_model_summary out with
      | some cleaned => Except.ok (label, clamp_summary cleaned)
      | none =>
        match local_result with
        | Except.ok s => Except.ok ("local", clamp_summary s)
        | Except.error e => Except.error e
    | Except.error _ =>
      match local_result with
      | Except.ok s => Except.ok ("local", clamp_summary s)
      | Except.error e => Except.error e
  | none =>
    match local_result with
    | Except.ok s => Except.ok ("local", clamp_summary s)
    | Except.error e => Except.error e

/-- A remote reply whose every line is dropped by the sanitiser: a JSON
object line, a code-fence line and a JSON array line. -/
def c6_bad_out : String := "\x7b\"type\":\"message\"\x7d\n```\n[1, 2]"

/-- A local heuristic summary (C6 scenarios). -/
def c6_local : String :=
  "## Distilled Session Summary\n- session_id: s\n- archive_path: /a\n- extracted_signals:\n"

end Moon

namespace Moon

/-! ## Theorems -/

/-- C2: trigger evaluation returns the ordered pair `[Archive, Compaction]`
when `usage_ratio ≥ trigger_ratio` and the time since
`max(last_archive_trigger, last_compaction_trigger)` has reached
`cooldown_secs` (a missing last-trigger value counting as elapsed), and the
empty list otherwise — in particular `[]` whenever the elapsed time is below
the cooldown, regardless of usage. -/
theorem evaluate_trigger_rule (cfg : MoonConfig) (state : MoonState)
    (usage : SessionUsageSnapshot) :
    (claim_trigger_condition cfg state usage →
      evaluate cfg state usage = [TriggerKind.Archive, TriggerKind.Compaction]) ∧
    (¬ claim_trigger_condition cfg state usage → evaluate cfg state usage = []) := by
  rcases h1 : state.last_archive_trigger_epoch_secs with _ | a <;>
    rcases h2 : state.last_compaction_trigger_epoch_secs with _ | b <;>
    constructor <;> intro h <;>
    simp only [claim_trigger_condition, h1, h2] at h <;>
    simp_all [evaluate, should_fire, unified_layer1_last_trigger, h1, h2]

/-- Witness for C2 at concrete inputs: the condition holds and both triggers
fire. -/
theorem evaluate_trigger_rule_witness :
    claim_trigger_condition sample_config sample_state sample_usage ∧
    evaluate sample_config sample_state sample_usage =
      [TriggerKind.Archive, TriggerKind.Compaction] := by
  have hc : claim_trigger_condition sample_config sample_state sample_usage := by
    constructor
    · norm_num [sample_config, sample_usage]
    · simp [sample_state]
  exact ⟨hc, (evaluate_trigger_rule sample_config sample_state sample_usage).1 hc⟩

/-- Reading back a freshly written file yields the written contents. -/
theorem fsLookup_fsWrite_self (fs : FileSys) (p c : String) :
    fsLookup (fsWrite fs p c) p = some c := by
  induction fs with
  | nil => simp [fsWrite, fsLookup]
  | cons kv rest ih =>
    by_cases h : kv.1 = p
    · simp [fsWrite, fsLookup, h]
    · simp [fsWrite, fsLookup, h, ih]

/-- `find?` over an append when the first part has no match. -/
theorem find_none_append {α : Type} (p : α → Bool) (l1 l2 : List α)
    (h : l1.find? p = none) : (l1 ++ l2).find? p = l2.find? p := by
  induction l1 with
  | nil => simp
  | cons x xs ih =>
    by_cases hx : p x = true
    · simp only [List.find?_cons, hx] at h
      exact absurd h (by simp)
    · have hx' : p x = false := by simpa using hx
      simp only [List.cons_append, List.find?_cons, hx'] at h ⊢
      exact ih h

/-- C1: archiving the same source twice with identical bytes is idempotent —
the second `archive_and_index` call returns `deduped = true` with the record
of the first call (in particular the same `archive_path`), leaves the file
system untouched (no new files under the archives root) and leaves the
ledger unchanged. -/
theorem archive_and_index_idempotent (hash : String → String) (st st1 : FsState)
    (archives_dir S coll : String) (now1 now2 : Nat)
    (proj1 proj2 : Option (String × Nat)) (idx1 idx2 : Bool)
    (bytes : String) (out1 : ArchivePipelineOutcome)
    (hsrc : fsLookup st.files S = some bytes)
    (h1 : archive_and_index hash st archives_dir S coll now1 proj1 idx1 =
      .ok (st1, out1))
    (hsrc2 : fsLookup st1.files S = some bytes) :
    archive_and_index hash st1 archives_dir S coll now2 proj2 idx2 =
      .ok (st1, { record := out1.record, deduped := true }) := by
  unfold archive_and_index at h1 ⊢
  simp only [hsrc] at h1
  simp only [hsrc2]
  cases hfind : st.ledger.find? fun r =>
      r.content_hash == hash bytes && r.source_path == S with
  | some r =>
    simp only [hfind, Except.ok.injEq, Prod.mk.injEq] at h1
    obtain ⟨hst, hout⟩ := h1
    subst hst
    subst hout
    simp [hfind]
  | none =>
    simp only [hfind, write_snapshot, hsrc, fsLookup_fsWrite_self,
      Except.ok.injEq, Prod.mk.injEq] at h1
    obtain ⟨hst, hout⟩ := h1
    subst hst
    subst hout
    rw [show ({ files := _, ledger := st.ledger ++ [_] } : FsState).ledger =
      st.ledger ++ [_] from rfl]
    rw [find_none_append _ _ _ hfind]
    simp [List.find?_cons]

/-- Witness for C1: a concrete source archived twice; the second call dedupes
and changes nothing. -/
theorem archive_and_index_idempotent_witness :
    fsLookup c1_state0.files "/s/a.json" = some "xyz" ∧
    archive_and_index c1_hash c1_state0 "/arch" "/s/a.json" "history" 100
        (some ("proj", 2)) true = .ok (c1_first.1, c1_first.2) ∧
    fsLookup c1_first.1.files "/s/a.json" = some "xyz" ∧
    archive_and_index c1_hash c1_first.1 "/arch" "/s/a.json" "history" 200
        none false =
      .ok (c1_first.1, { record := c1_first.2.record, deduped := true }) := by
  refine ⟨by decide, rfl, by decide, ?_⟩
  exact archive_and_index_idempotent c1_hash c1_state0 c1_first.1 "/arch"
    "/s/a.json" "history" 100 200 (some ("proj", 2)) none true false "xyz"
    c1_first.2 (by decide) rfl (by decide)

/-- Membership implies `List.contains`. -/
theorem list_contains_of_mem (l : List String) (x : String) (h : x ∈ l) :
    l.contains x = true := by
  induction l with
  | nil => cases h
  | cons a rest ih =>
    rcases List.mem_cons.mp h with rfl | hr
    · simp [List.contains, List.elem]
    · by_cases hx : (x == a) = true
      · simp [List.contains, List.elem, hx]
      · simp only [List.contains, List.elem, hx]
        exact ih hr

/-- Removing one path does not affect lookups of another. -/
theorem fsLookup_fsRemove_ne (fs : FileSys) (p q : String) (h : p ≠ q) :
    fsLookup (fsRemove fs q) p = fsLookup fs p := by
  induction fs with
  | nil => rfl
  | cons kv rest ih =>
    by_cases hk : kv.1 = q
    · have hkvp : kv.1 ≠ p := fun hkvp => h (hkvp ▸ hk)
      simp only [fsRemove, if_pos hk]
      rw [ih]
      simp [fsLookup, hkvp]
    · simp only [fsRemove, if_neg hk, fsLookup]
      by_cases hkvp : kv.1 = p
      · simp [hkvp]
      · simp [hkvp, ih]

/-- `cleanup_step` never drops purge entries. -/
theorem cleanup_step_purge_mono (removeOk : String → Bool) (now g : Nat)
    (acc : RetentionAcc) (cand : String × Nat) (x : String)
    (hx : x ∈ acc.purge) :
    x ∈ (cleanup_step removeOk now g acc cand).purge := by
  unfold cleanup_step
  split
  · exact hx
  · split
    · split
      · simp only [List.mem_append]
        exact Or.inl hx
      · exact hx
    · simp only [List.mem_append]
      exact Or.inl hx

/-- The candidate loop never drops purge entries. -/
theorem cleanup_fold_purge_mono (removeOk : String → Bool) (now g : Nat)
    (l : List (String × Nat)) (acc : RetentionAcc) (x : String)
    (hx : x ∈ acc.purge) :
    x ∈ (l.foldl (cleanup_step removeOk now g) acc).purge := by
  induction l generalizing acc with
  | nil => exact hx
  | cons c rest ih =>
    exact ih _ (cleanup_step_purge_mono removeOk now g acc c x hx)

/-- `cleanup_step` only filters `distilled`, so key-absence is preserved. -/
theorem cleanup_step_distilled_subset (removeOk : String → Bool) (now g : Nat)
    (acc : RetentionAcc) (cand : String × Nat) (kv : String × Nat)
    (hkv : kv ∈ (cleanup_step removeOk now g acc cand).distilled) :
    kv ∈ acc.distilled := by
  unfold cleanup_step at hkv
  split at hkv
  · exact hkv
  · split at hkv
    · split at hkv
      · exact List.mem_of_mem_filter hkv
      · exact hkv
    · exact List.mem_of_mem_filter hkv

/-- The candidate loop only filters `distilled`. -/
theorem cleanup_fold_distilled_subset (removeOk : String → Bool) (now g : Nat)
    (l : List (String × Nat)) (acc : RetentionAcc) (kv : String × Nat)
    (hkv : kv ∈ (l.foldl (cleanup_step removeOk now g) acc).distilled) :
    kv ∈ acc.distilled := by
  induction l generalizing acc with
  | nil => exact hkv
  | cons c rest ih =>
    exact cleanup_step_distilled_subset removeOk now g acc c kv (ih _ hkv)

/-- A step for another key does not change the file visible at `P`. -/
theorem cleanup_step_fs_ne (removeOk : String → Bool) (now g : Nat)
    (acc : RetentionAcc) (cand : String × Nat) (P : String) (h : cand.1 ≠ P) :
    fsLookup (cleanup_step removeOk now g acc cand).fs P = fsLookup acc.fs P := by
  unfold cleanup_step
  split
  · rfl
  · split
    · split
      · exact fsLookup_fsRemove_ne acc.fs P cand.1 (fun hpq => h hpq.symm)
      · rfl
    · rfl

/-- Core loop property for C4: if an expired entry's file is missing or its
delete succeeds, the loop purges it and drops it from `distilled`. -/
theorem cleanup_fold_purges (removeOk : String → Bool) (now g : Nat)
    (l : List (String × Nat)) (acc : RetentionAcc) (P : String) (t : Nat)
    (hmem : (P, t) ∈ l) (hnodup : (l.map Prod.fst).Nodup)
    (hexp : g ≤ now - t)
    (hdel : fsLookup acc.fs P = none ∨ removeOk P = true) :
    P ∈ (l.foldl (cleanup_step removeOk now g) acc).purge ∧
      ∀ kv ∈ (l.foldl (cleanup_step removeOk now g) acc).distilled, kv.1 ≠ P := by
  induction l generalizing acc with
  | nil => cases hmem
  | cons c rest ih =>
    rw [List.foldl_cons]
    rcases List.mem_cons.mp hmem with hc | hrest
    · subst hc
      have hstep : P ∈ (cleanup_step removeOk now g acc (P, t)).purge ∧
          ∀ kv ∈ (cleanup_step removeOk now g acc (P, t)).distilled, kv.1 ≠ P := by
        simp only [cleanup_step]
        have hlt : ¬ (now - t < g) := by omega
        rw [if_neg hlt]
        rcases hdel with hnone | hok
        · rw [hnone]
          simp only [Option.isSome_none, Bool.false_eq_true, if_false]
          constructor
          · simp
          · intro kv hkv
            have := List.of_mem_filter hkv
            simpa using this
        · by_cases hsome : (fsLookup acc.fs P).isSome = true
          · rw [if_pos hsome, if_pos hok]
            constructor
            · simp
            · intro kv hkv
              have := List.of_mem_filter hkv
              simpa using this
          · rw [if_neg hsome]
            constructor
            · simp
            · intro kv hkv
              have := List.of_mem_filter hkv
              simpa using this
      refine ⟨cleanup_fold_purge_mono removeOk now g rest _ P hstep.1, ?_⟩
      intro kv hkv
      exact hstep.2 kv (cleanup_fold_distilled_subset removeOk now g rest _ kv hkv)
    · have hcne : c.1 ≠ P := by
        have hPin : P ∈ rest.map Prod.fst :=
          List.mem_map.mpr ⟨(P, t), hrest, rfl⟩
        have := (List.nodup_cons.mp hnodup).1
        intro hEq
        exact this (hEq ▸ hPin)
      have hdel' : fsLookup (cleanup_step removeOk now g acc c).fs P = none ∨
          removeOk P = true := by
        rcases hdel with hnone | hok
        · exact Or.inl ((cleanup_step_fs_ne removeOk now g acc c P hcne).trans hnone)
        · exact Or.inr hok
      exact ih (cleanup_step removeOk now g acc c) hrest
        (List.nodup_cons.mp hnodup).2 hdel'

/-- C4 counterexample: an expired entry whose archive exists but whose delete
fails is NOT removed — after retention the ledger, the channel map and
`distilled_archives` all still reference it, refuting the claim's
"unconditionally schedules removal ... whether or not deleting the archive
file succeeds". -/
theorem retention_cascade_counterexample :
    1 * 3600 ≤ 1000000 - 1 ∧
    (c4_bad_res.state.distilled_archives.any
      fun kv => kv.1 == "/arch/raw/expired.json") = true ∧
    (c4_bad_res.ledger.any
      fun r => r.archive_path == "/arch/raw/expired.json") = true ∧
    (c4_bad_res.channel_map.any
      fun kv => kv.2.archive_path == "/arch/raw/expired.json") = true := by
  refine ⟨by norm_num, by decide, by decide, by decide⟩

/-- C4 (amended): for every expired entry `(P, t)` of `distilled_archives`
(nonzero grace, `now − t ≥ grace_hours·3600`) whose archive file is missing
or whose delete succeeds, retention removes `P` from `distilled_archives`,
the channel map and the ledger; an entry whose delete fails is retained (see
the counterexample). -/
theorem retention_cascade_conditional (env : RetentionEnv) (state : MoonState)
    (now grace_hours : Nat) (P : String) (t : Nat)
    (hmem : (P, t) ∈ state.distilled_archives)
    (hnodup : (state.distilled_archives.map Prod.fst).Nodup)
    (hgrace : grace_hours ≠ 0)
    (hexpired : grace_hours * 3600 ≤ now - t)
    (hdel : fsLookup env.fs P = none ∨ env.removeOk P = true) :
    (∀ kv ∈ (cleanup_expired_distilled_archives env state now grace_hours).state.distilled_archives,
      kv.1 ≠ P) ∧
    (∀ kv ∈ (cleanup_expired_distilled_archives env state now grace_hours).channel_map,
      kv.2.archive_path ≠ P) ∧
    (∀ r ∈ (cleanup_expired_distilled_archives env state now grace_hours).ledger,
      r.archive_path ≠ P) := by
  have hg : ¬ (grace_hours * 3600 = 0) := by
    intro h
    exact hgrace (by omega)
  have hcore := cleanup_fold_purges env.removeOk now (grace_hours * 3600)
    state.distilled_archives
    { fs := env.fs, distilled := state.distilled_archives, purge := [],
      removed := 0, missing := 0, failed := 0 }
    P t hmem hnodup hexpired hdel
  unfold cleanup_expired_distilled_archives
  simp only [hg, if_false]
  have hPpurge := hcore.1
  have hnonempty : ¬ ((state.distilled_archives.foldl
      (cleanup_step env.removeOk now (grace_hours * 3600))
      { fs := env.fs, distilled := state.distilled_archives, purge := [],
        removed := 0, missing := 0, failed := 0 }).purge.isEmpty = true ∧
      (state.distilled_archives.foldl
      (cleanup_step env.removeOk now (grace_hours * 3600))
      { fs := env.fs, distilled := state.distilled_archives, purge := [],
        removed := 0, missing := 0, failed := 0 }).failed = 0) := by
    intro hand
    rw [List.isEmpty_iff] at hand
    rw [hand.1] at hPpurge
    cases hPpurge
  simp only [hnonempty, if_false]
  refine ⟨fun kv hkv => hcore.2 kv hkv, ?_, ?_⟩
  · intro kv hkv
    intro hap
    unfold remove_by_archive_paths at hkv
    by_cases hpe : (state.distilled_archives.foldl
        (cleanup_step env.removeOk now (grace_hours * 3600))
        { fs := env.fs, distilled := state.distilled_archives, purge := [],
          removed := 0, missing := 0, failed := 0 }).purge.isEmpty = true
    · rw [List.isEmpty_iff] at hpe
      rw [hpe] at hPpurge
      cases hPpurge
    · simp only [hpe, if_false] at hkv
      have hfilter := List.of_mem_filter hkv
      rw [hap] at hfilter
      simp only [Bool.not_eq_true'] at hfilter
      rw [list_contains_of_mem _ _ hPpurge] at hfilter
      cases hfilter
  · intro r hr
    intro hap
    unfold remove_ledger_records at hr
    by_cases hpe : (state.distilled_archives.foldl
        (cleanup_step env.removeOk now (grace_hours * 3600))
        { fs := env.fs, distilled := state.distilled_archives, purge := [],
          removed := 0, missing := 0, failed := 0 }).purge.isEmpty = true
    · rw [List.isEmpty_iff] at hpe
      rw [hpe] at hPpurge
      cases hPpurge
    · simp only [hpe, if_false] at hr
      have hfilter := List.of_mem_filter hr
      rw [hap] at hfilter
      simp only [Bool.not_eq_true'] at hfilter
      rw [list_contains_of_mem _ _ hPpurge] at hfilter
      cases hfilter

/-- Witness for C4 (amended) at the concrete expired entry whose delete
succeeds. -/
theorem retention_cascade_conditional_witness :
    ("/arch/raw/expired.json", 1) ∈ c4_state.distilled_archives ∧
    (∀ kv ∈ c4_good_res.state.distilled_archives,
      kv.1 ≠ "/arch/raw/expired.json") ∧
    (∀ r ∈ c4_good_res.ledger, r.archive_path ≠ "/arch/raw/expired.json") := by
  have h := retention_cascade_conditional c4_good_env c4_state 1000000 1
    "/arch/raw/expired.json" 1 (by decide) (by decide) (by decide)
    (by norm_num) (Or.inr (by decide))
  exact ⟨by decide, h.1, h.2.2⟩

/-- C3 counterexample: with both triggers firing and no qualifying source
session file, `run_once` aborts right after the trigger audit — no later step
runs and the state file is not saved — refuting "failure of an individual
step does not abort the cycle". -/
theorem cycle_abort_counterexample :
    run_once c3_env =
      { events := ["watcher:triggered"], final_state := none,
        error := some "no source session file found in openclaw sessions dir" } := by
  decide

/-- Retention followed by save completes whenever audits and the save
succeed. -/
theorem retention_and_save_ok (env : WatcherEnv) (cfg : MoonConfig) (now : Nat)
    (ev : List String) (st : MoonState)
    (haudit : env.audit_ok = true) (hsave : env.save_ok = true) :
    (retention_and_save env cfg now ev st).error = none ∧
    (retention_and_save env cfg now ev st).final_state.isSome = true ∧
    (retention_and_save env cfg now ev st).events.getLast? =
      some "state-saved" := by
  unfold retention_and_save
  rcases h : (cleanup_expired_distilled_archives env.retention st now
      cfg.distill.archive_grace_hours).summary with _ | s <;>
    simp [h, haudit, hsave, List.getLast?_append_of_ne_nil]

/-- The distillation loop never aborts when audits succeed: each failed
`run_distillation` only records a degraded audit row. -/
theorem distill_loop_ok (env : WatcherEnv) (now : Nat)
    (l : List ArchiveRecord) (haudit : env.audit_ok = true)
    (k : List String → MoonState → RunResult)
    (hk : ∀ ev st, (k ev st).error = none ∧
      (k ev st).final_state.isSome = true ∧
      (k ev st).events.getLast? = some "state-saved") :
    ∀ ev st, (distill_loop env now l ev st k).error = none ∧
      (distill_loop env now l ev st k).final_state.isSome = true ∧
      (distill_loop env now l ev st k).events.getLast? = some "state-saved" := by
  induction l with
  | nil =>
    intro ev st
    exact hk ev st
  | cons r rest ih =>
    intro ev st
    unfold distill_loop
    split <;> (simp only [haudit]; rw [if_pos trivial]; exact ih _ _)

/-- The compaction loop never aborts when audits succeed: per-target
failures (missing source, archive error, index failure, upsert error,
compact-RPC error) are recorded and the loop continues. -/
theorem compaction_loop_ok (env : WatcherEnv) (sm : List (String × String))
    (l : List SessionUsageSnapshot) (haudit : env.audit_ok = true)
    (k : List String → Nat → Nat → List String → RunResult)
    (hk : ∀ ev s f outs, (k ev s f outs).error = none ∧
      (k ev s f outs).final_state.isSome = true ∧
      (k ev s f outs).events.getLast? = some "state-saved") :
    ∀ ev s f outs, (compaction_loop env sm l ev s f outs k).error = none ∧
      (compaction_loop env sm l ev s f outs k).final_state.isSome = true ∧
      (compaction_loop env sm l ev s f outs k).events.getLast? =
        some "state-saved" := by
  induction l with
  | nil =>
    intro ev s f outs
    exact hk ev s f outs
  | cons t rest ih =>
    intro ev s f outs
    unfold compaction_loop
    split
    · exact ih _ _ _ _
    · split
      · exact ih _ _ _ _
      · simp only [haudit]
        rw [if_pos trivial]
        split
        · exact ih _ _ _ _
        · split
          · exact ih _ _ _ _
          · split <;> (rw [if_pos trivial]; exact ih _ _ _ _)

/-- The distillation step plus retention and save completes when audits and
the save succeed. -/
theorem finish_step_ok (env : WatcherEnv) (cfg : MoonConfig)
    (usage : SessionUsageSnapshot) (targets : List SessionUsageSnapshot)
    (ev : List String) (st : MoonState)
    (haudit : env.audit_ok = true) (hsave : env.save_ok = true) :
    (finish_step env cfg usage targets ev st).error = none ∧
    (finish_step env cfg usage targets ev st).final_state.isSome = true ∧
    (finish_step env cfg usage targets ev st).events.getLast? =
      some "state-saved" := by
  have hdisp : ∀ (sel : List ArchiveRecord × List String) (ev : List String)
      (st : MoonState),
      (distill_dispatch env cfg usage sel ev st).error = none ∧
      (distill_dispatch env cfg usage sel ev st).final_state.isSome = true ∧
      (distill_dispatch env cfg usage sel ev st).events.getLast? =
        some "state-saved" := by
    intro sel ev st
    unfold distill_dispatch
    simp only [haudit, if_true]
    split
    · exact distill_loop_ok env usage.captured_at_epoch_secs _ haudit _
        (fun ev st => retention_and_save_ok env cfg
          usage.captured_at_epoch_secs ev st haudit hsave) _ _
    · split
      · exact retention_and_save_ok env cfg usage.captured_at_epoch_secs _ _
          haudit hsave
      · exact retention_and_save_ok env cfg usage.captured_at_epoch_secs _ _
          haudit hsave
  unfold finish_step
  exact hdisp _ _ _

/-- The compaction step plus the remaining cycle completes when audits and
the save succeed, whatever the per-target results. -/
theorem compaction_step_ok (env : WatcherEnv) (cfg : MoonConfig)
    (usage : SessionUsageSnapshot) (targets : List SessionUsageSnapshot)
    (sm : List (String × String)) (notes : List String) (ready : Bool)
    (ev : List String) (st : MoonState)
    (haudit : env.audit_ok = true) (hsave : env.save_ok = true) :
    (compaction_step_fn env cfg usage targets sm notes ready ev st).error = none ∧
    (compaction_step_fn env cfg usage targets sm notes ready ev st).final_state.isSome = true ∧
    (compaction_step_fn env cfg usage targets sm notes ready ev st).events.getLast? =
      some "state-saved" := by
  unfold compaction_step_fn
  simp only [haudit, if_true]
  split
  · exact finish_step_ok env cfg usage targets _ _ haudit hsave
  · split
    · exact compaction_loop_ok env sm targets haudit _
        (fun ev s f outs =>
          finish_step_ok env cfg usage targets _ _ haudit hsave) _ _ _ _
    · split
      · exact finish_step_ok env cfg usage targets _ _ haudit hsave
      · exact finish_step_ok env cfg usage targets _ _ haudit hsave

/-- The archive step plus the remaining cycle completes when audits and the
save succeed, provided the archive step itself does not fail (no Archive
trigger, or a source found and archived). -/
theorem archive_step_ok (env : WatcherEnv) (cfg : MoonConfig)
    (usage : SessionUsageSnapshot) (triggers : List TriggerKind)
    (targets : List SessionUsageSnapshot) (sm : List (String × String))
    (notes : List String) (ready : Bool) (ev : List String) (st : MoonState)
    (haudit : env.audit_ok = true) (hsave : env.save_ok = true)
    (harch : (triggers.any fun t => match t with
        | TriggerKind.Archive => true
        | TriggerKind.Compaction => false) = false ∨
      (∃ src out, env.latest_session_result = .ok (some src) ∧
        env.archive_result src = .ok out)) :
    (archive_step_fn env cfg usage triggers targets sm notes ready ev st).error = none ∧
    (archive_step_fn env cfg usage triggers targets sm notes ready ev st).final_state.isSome = true ∧
    (archive_step_fn env cfg usage triggers targets sm notes ready ev st).events.getLast? =
      some "state-saved" := by
  unfold archive_step_fn
  rcases harch with hno | ⟨src, out, hlatest, harchres⟩
  · simp only [hno, Bool.false_eq_true, if_false]
    exact compaction_step_ok env cfg usage targets sm notes ready ev st
      haudit hsave
  · split
    · simp only [hlatest, harchres, haudit, if_true]
      exact compaction_step_ok env cfg usage targets sm notes ready _ _
        haudit hsave
    · exact compaction_step_ok env cfg usage targets sm notes ready ev st
        haudit hsave

/-- C3 (amended): tolerated step failures — per-target compaction failures
(source lookup, archive, index, channel-map upsert, compact RPC) and
`run_distillation` failures — never abort the cycle: provided config, state,
inbound and usage load, every audit append and the final save succeed, and
the archive step either is not triggered or finds and archives a source,
`run_once` completes without error and saves the state, whatever the results
of the other external calls.  (The archive step finding no qualifying source
file, or any audit append failing, aborts the cycle: see the
counterexample.) -/
theorem cycle_tolerates_step_failures (env : WatcherEnv) (cfg : MoonConfig)
    (state0 : MoonState) (inbound : InboundWatchOutcome)
    (usage : SessionUsageSnapshot)
    (hcfg : env.cfg_result = .ok cfg)
    (hstate : env.state_result = .ok state0)
    (hinb : env.inbound_result = .ok inbound)
    (husage : env.usage_result = .ok usage)
    (haudit : env.audit_ok = true) (hsave : env.save_ok = true)
    (harch : ((evaluate cfg (heartbeat_state state0 usage) usage).any
        fun t => match t with
        | TriggerKind.Archive => true
        | TriggerKind.Compaction => false) = false ∨
      (∃ src out, env.latest_session_result = .ok (some src) ∧
        env.archive_result src = .ok out)) :
    (run_once env).error = none ∧
    (run_once env).final_state.isSome = true ∧
    (run_once env).events.getLast? = some "state-saved" := by
  have harchok : ∀ (targets : List SessionUsageSnapshot)
      (sm : List (String × String)) (notes : List String) (ready : Bool)
      (ev : List String) (st : MoonState),
      (archive_step_fn env cfg usage
        (evaluate cfg (heartbeat_state state0 usage) usage)
        targets sm notes ready ev st).error = none ∧
      (archive_step_fn env cfg usage
        (evaluate cfg (heartbeat_state state0 usage) usage)
        targets sm notes ready ev st).final_state.isSome = true ∧
      (archive_step_fn env cfg usage
        (evaluate cfg (heartbeat_state state0 usage) usage)
        targets sm notes ready ev st).events.getLast? = some "state-saved" :=
    fun targets sm notes ready ev st =>
      archive_step_ok env cfg usage _ targets sm notes ready ev st haudit
        hsave harch
  unfold run_once
  rw [hcfg, hstate, hinb, husage]
  simp only [haudit, if_true]
  split
  · split
    · exact harchok _ _ _ _ _ _
    · exact harchok _ _ _ _ _ _
  · split
    · exact harchok _ _ _ _ _ _
    · exact harchok _ _ _ _ _ _

/-- Witness for C3 (amended): a concrete cycle in which the compaction
target's source cannot be resolved (and distillation would fail), yet the
cycle completes, audits the degraded compaction, and saves the state. -/
theorem cycle_tolerates_step_failures_witness :
    (run_once c3_good_env).error = none ∧
    (run_once c3_good_env).final_state.isSome = true ∧
    (run_once c3_good_env).events.getLast? = some "state-saved" ∧
    (run_once c3_good_env).events.contains "compaction:degraded" = true := by
  refine ⟨?_, ?_, ?_, by decide⟩
  · exact (cycle_tolerates_step_failures c3_good_env c3_cfg sample_state
      { detected_files := 0, triggered_events := 0, failed_events := 0,
        watched_paths := [] }
      c3_good_usage rfl rfl rfl rfl rfl rfl
      (Or.inr ⟨"/s/a.json", c3_archive_outcome, rfl, rfl⟩)).1
  · exact (cycle_tolerates_step_failures c3_good_env c3_cfg sample_state
      { detected_files := 0, triggered_events := 0, failed_events := 0,
        watched_paths := [] }
      c3_good_usage rfl rfl rfl rfl rfl rfl
      (Or.inr ⟨"/s/a.json", c3_archive_outcome, rfl, rfl⟩)).2.1
  · exact (cycle_tolerates_step_failures c3_good_env c3_cfg sample_state
      { detected_files := 0, triggered_events := 0, failed_events := 0,
        watched_paths := [] }
      c3_good_usage rfl rfl rfl rfl rfl rfl
      (Or.inr ⟨"/s/a.json", c3_archive_outcome, rfl, rfl⟩)).2.2

theorem le_foldl_max (l : List Nat) (a : Nat) : a ≤ l.foldl Nat.max a := by
  induction l generalizing a with
  | nil => exact Nat.le_refl a
  | cons x xs ih => exact Nat.le_trans (Nat.le_max_left a x) (ih (Nat.max a x))

/-- Every member is below a `foldl Nat.max`. -/
theorem mem_le_foldl_max (l : List Nat) (a x : Nat) (hx : x ∈ l) :
    x ≤ l.foldl Nat.max a := by
  induction l generalizing a with
  | nil => cases hx
  | cons y ys ih =>
    rcases List.mem_cons.mp hx with rfl | hy
    · exact Nat.le_trans (Nat.le_max_right a x) (le_foldl_max ys (Nat.max a x))
    · exact ih (Nat.max a y) hy

/-- Members of a stable insertion are the inserted element or old members. -/
theorem mem_insert_by_created (r x : ArchiveRecord) (l : List ArchiveRecord)
    (h : x ∈ insert_by_created r l) : x = r ∨ x ∈ l := by
  induction l with
  | nil => simpa [insert_by_created] using h
  | cons y ys ih =>
    unfold insert_by_created at h
    split at h
    · rcases List.mem_cons.mp h with rfl | h2
      · exact Or.inr (List.mem_cons_self _ _)
      · rcases ih h2 with hxr | h3
        · exact Or.inl hxr
        · exact Or.inr (List.mem_cons_of_mem _ h3)
    · rcases List.mem_cons.mp h with rfl | h2
      · exact Or.inl rfl
      · exact Or.inr h2

/-- Members of the insertion fold come from the accumulator or the input. -/
theorem mem_sort_fold (l : List ArchiveRecord) (acc : List ArchiveRecord)
    (x : ArchiveRecord)
    (h : x ∈ l.foldl (fun acc r => insert_by_created r acc) acc) :
    x ∈ acc ∨ x ∈ l := by
  induction l generalizing acc with
  | nil => exact Or.inl h
  | cons r rest ih =>
    rw [List.foldl_cons] at h
    rcases ih (insert_by_created r acc) h with hacc | hrest
    · rcases mem_insert_by_created r x acc hacc with rfl | hxa
      · exact Or.inr (List.mem_cons_self _ _)
      · exact Or.inl hxa
    · exact Or.inr (List.mem_cons_of_mem _ hrest)

/-- Members of the sorted ledger come from the ledger. -/
theorem mem_sort_by_created (l : List ArchiveRecord) (x : ArchiveRecord)
    (h : x ∈ sort_by_created l) : x ∈ l :=
  (mem_sort_fold l [] x h).resolve_left (by simp)

/-- The candidate loop computes the filtered prefix of length
`max_per_cycle`, for a positive cap. -/
theorem distill_pick_eq_take_filter (distilled : List (String × Nat))
    (ex : String → Bool) (cap : Nat) (l : List ArchiveRecord) :
    ∀ acc : List ArchiveRecord, acc.length < cap →
      distill_pick distilled ex cap acc l =
        acc.reverse ++
          (l.filter (distill_pred distilled ex)).take (cap - acc.length) := by
  induction l with
  | nil =>
    intro acc _
    simp [distill_pick]
  | cons r rest ih =>
    intro acc hacc
    by_cases h1 : r.indexed = true
    · by_cases h2 : (lookupKey distilled r.archive_path).isSome = true
      · have hpred : distill_pred distilled ex r = false := by
          simp [distill_pred, h1, h2]
        have hskip : distill_pick distilled ex cap acc (r :: rest) =
            distill_pick distilled ex cap acc rest := by
          simp [distill_pick, h1, h2]
        rw [hskip, List.filter_cons, hpred]
        exact ih acc hacc
      · by_cases h3 : ex r.archive_path = true
        · have hpred : distill_pred distilled ex r = true := by
            simp [distill_pred, h1, h2, h3]
          rw [List.filter_cons, hpred, if_pos rfl]
          by_cases hcap2 : cap ≤ acc.length + 1
          · have hpush : distill_pick distilled ex cap acc (r :: rest) =
                (r :: acc).reverse := by
              simp [distill_pick, h1, h2, h3, hcap2]
            have hcapeq : cap - acc.length = 1 := by omega
            rw [hpush, hcapeq]
            simp
          · have hpush : distill_pick distilled ex cap acc (r :: rest) =
                distill_pick distilled ex cap (r :: acc) rest := by
              simp [distill_pick, h1, h2, h3, hcap2]
            have hlt : (r :: acc).length < cap := by
              simp only [List.length_cons]
              omega
            rw [hpush, ih (r :: acc) hlt]
            have hsplit : cap - acc.length = (cap - (acc.length + 1)) + 1 := by
              omega
            rw [hsplit, List.take_succ_cons]
            simp [List.reverse_cons, List.append_assoc, List.length_cons,
              List.singleton_append]
        · have h3f : ex r.archive_path = false := by
            cases he : ex r.archive_path
            · rfl
            · exact absurd he h3
          have hpred : distill_pred distilled ex r = false := by
            simp [distill_pred, h3f]
          have hskip : distill_pick distilled ex cap acc (r :: rest) =
              distill_pick distilled ex cap acc rest := by
            simp [distill_pick, h1, h2, h3f]
          rw [hskip, List.filter_cons, hpred]
          exact ih acc hacc
    · have h1f : r.indexed = false := by
        cases hi : r.indexed
        · rfl
        · exact absurd hi h1
      have hpred : distill_pred distilled ex r = false := by
        simp [distill_pred, h1f]
      have hskip : distill_pick distilled ex cap acc (r :: rest) =
          distill_pick distilled ex cap acc rest := by
        simp [distill_pick, h1f]
      rw [hskip, List.filter_cons, hpred]
      exact ih acc hacc

/-- C5 counterexample: with one stale archive meeting all four of the claim's
conditions and a fresh archive younger than `idle_secs`, the selection is
empty — the idleness gate is evaluated globally on the newest archive, not
per record, so an eligible old archive is not selected. -/
theorem distill_selection_counterexample :
    (distill_selection c5_cfg sample_state c5_usage []
      (.ok [c5_old_record, c5_new_record]) c5_exists).1 = [] ∧
    c5_cfg.distill.mode = "idle" ∧
    is_cooldown_ready sample_state.last_distill_trigger_epoch_secs
      c5_usage.captured_at_epoch_secs c5_cfg.watcher.cooldown_secs = true ∧
    1 ≤ c5_cfg.distill.max_per_cycle ∧
    c5_cfg.distill.idle_secs ≤
      c5_usage.captured_at_epoch_secs - c5_old_record.created_at_epoch_secs ∧
    c5_old_record.indexed = true ∧
    c5_exists c5_old_record.archive_path = true ∧
    (lookupKey sample_state.distilled_archives
      c5_old_record.archive_path).isSome = false := by
  decide

/-- C5 (amended): in idle mode with no compaction targets, elapsed distill
cooldown and a positive per-cycle cap, when the globally newest archive is at
least `idle_secs` old, the candidates are exactly the first `max_per_cycle`
records of the `created_at`-sorted ledger that are indexed, undistilled and
present on disk — and each selected record then satisfies all four of the
claim's conditions, including being older than `idle_secs`. -/
theorem distill_selection_amended (cfg : MoonConfig) (state : MoonState)
    (usage : SessionUsageSnapshot) (ledger : List ArchiveRecord)
    (ex : String → Bool)
    (hmode : cfg.distill.mode = "idle")
    (hcool : is_cooldown_ready state.last_distill_trigger_epoch_secs
      usage.captured_at_epoch_secs cfg.watcher.cooldown_secs = true)
    (hcap : 1 ≤ cfg.distill.max_per_cycle)
    (hne : ledger ≠ [])
    (hidle : cfg.distill.idle_secs ≤
      usage.captured_at_epoch_secs - latest_created ledger) :
    (distill_selection cfg state usage [] (.ok ledger) ex).1 =
      ((sort_by_created ledger).filter
        (distill_pred state.distilled_archives ex)).take
          cfg.distill.max_per_cycle ∧
    ∀ r ∈ (distill_selection cfg state usage [] (.ok ledger) ex).1,
      cfg.distill.idle_secs ≤
          usage.captured_at_epoch_secs - r.created_at_epoch_secs ∧
        r.indexed = true ∧ ex r.archive_path = true ∧
        (lookupKey state.distilled_archives r.archive_path).isSome = false := by
  have hempty : ledger.isEmpty = false := by
    cases ledger
    · exact absurd rfl hne
    · rfl
  have hnotlt : ¬ (usage.captured_at_epoch_secs - latest_created ledger <
      cfg.distill.idle_secs) := by omega
  have hsel : (distill_selection cfg state usage [] (.ok ledger) ex).1 =
      ((sort_by_created ledger).filter
        (distill_pred state.distilled_archives ex)).take
          cfg.distill.max_per_cycle := by
    unfold distill_selection
    simp only [hmode, beq_self_eq_true, if_true, List.isEmpty_nil,
      Bool.not_false, hcool, Bool.not_true, Bool.false_eq_true, if_false,
      hempty, hnotlt]
    rw [distill_pick_eq_take_filter state.distilled_archives ex
      cfg.distill.max_per_cycle (sort_by_created ledger) [] (by simpa using hcap)]
    simp only [List.reverse_nil, List.nil_append, Nat.sub_zero]
    split
    · rename_i hce
      rw [List.isEmpty_iff] at hce
      exact hce.symm
    · rfl
  refine ⟨hsel, ?_⟩
  intro r hr
  rw [hsel] at hr
  have hrf : r ∈ (sort_by_created ledger).filter
      (distill_pred state.distilled_archives ex) := List.mem_of_mem_take hr
  have hpred := List.of_mem_filter hrf
  have hrs : r ∈ sort_by_created ledger := List.mem_of_mem_filter hrf
  have hrl : r ∈ ledger := mem_sort_by_created ledger r hrs
  have hle : r.created_at_epoch_secs ≤ latest_created ledger := by
    unfold latest_created
    exact mem_le_foldl_max _ 0 _ (List.mem_map.mpr ⟨r, hrl, rfl⟩)
  have hage : cfg.distill.idle_secs ≤
      usage.captured_at_epoch_secs - r.created_at_epoch_secs :=
    Nat.le_trans hidle (Nat.sub_le_sub_left hle usage.captured_at_epoch_secs)
  unfold distill_pred at hpred
  have h12 := Bool.and_eq_true_iff.mp hpred
  have h1 := Bool.and_eq_true_iff.mp h12.1
  refine ⟨hage, h1.1, h12.2, ?_⟩
  have := h1.2
  cases hs : (lookupKey state.distilled_archives r.archive_path).isSome
  · rfl
  · rw [hs] at this
    cases this

/-- Witness for C5 (amended): the old archive alone, now globally idle, is
selected. -/
theorem distill_selection_amended_witness :
    c5_cfg.distill.mode = "idle" ∧
    (distill_selection c5_cfg sample_state c5_usage []
      (.ok [c5_old_record]) c5_exists).1 =
      ((sort_by_created [c5_old_record]).filter
        (distill_pred sample_state.distilled_archives c5_exists)).take
          c5_cfg.distill.max_per_cycle := by
  refine ⟨by decide, ?_⟩
  exact (distill_selection_amended c5_cfg sample_state c5_usage [c5_old_record]
    c5_exists (by decide) (by decide) (by decide) (by decide) (by decide)).1

/-- C8: every usage snapshot built by the probe (single-session path and the
per-session compaction scan) has `max_tokens ≥ 1` and
`usage_ratio = used_tokens / max_tokens`; a payload reporting `max = 0`
never yields `max_tokens = 0` or an unguarded division. -/
theorem usage_snapshot_well_formed (session_id provider : String)
    (used mx now : Nat) (snapshots : List (String × Nat × Nat))
    (s : SessionUsageSnapshot)
    (hs : s ∈ collect_openclaw_usages_map snapshots now) :
    1 ≤ (to_snapshot session_id used mx provider now).max_tokens ∧
      (to_snapshot session_id used mx provider now).usage_ratio =
        ((to_snapshot session_id used mx provider now).used_tokens : Rat) /
          ((to_snapshot session_id used mx provider now).max_tokens : Rat) ∧
      1 ≤ s.max_tokens ∧
      s.usage_ratio = (s.used_tokens : Rat) / (s.max_tokens : Rat) := by
  have hone : ∀ m : Nat, 1 ≤ (if m = 0 then 1 else m) := by
    intro m
    split <;> omega
  have hratio : ∀ u m : Nat,
      usage_ratio_of u (if m = 0 then 1 else m) =
        (u : Rat) / (((if m = 0 then 1 else m) : Nat) : Rat) := by
    intro u m
    by_cases h : m = 0
    · simp [h, usage_ratio_of]
    · simp [h, usage_ratio_of]
  refine ⟨hone mx, hratio used mx, ?_, ?_⟩
  · rcases List.mem_map.mp hs with ⟨t, _, rfl⟩
    exact hone t.2.2
  · rcases List.mem_map.mp hs with ⟨t, _, rfl⟩
    exact hratio t.2.1 t.2.2

/-- Witness for C8 at a concrete zero-max payload. -/
theorem usage_snapshot_well_formed_witness :
    sample_scan_snapshot ∈ collect_openclaw_usages_map [("s1", 7, 0)] 42 ∧
      1 ≤ (to_snapshot "cur" 5 0 "openclaw" 42).max_tokens := by
  have hmem : sample_scan_snapshot ∈ collect_openclaw_usages_map [("s1", 7, 0)] 42 := by
    simp [collect_openclaw_usages_map, sample_scan_snapshot]
  exact ⟨hmem,
    (usage_snapshot_well_formed "cur" "openclaw" 5 0 42 [("s1", 7, 0)] _ hmem).1⟩

/-- C10: `upsert` rejects an empty or whitespace-only channel key, source path
or archive path without touching the on-disk map; on success it writes the
fresh record for `channel_key` and leaves every other key's record
unchanged. -/
theorem upsert_validated_frame_preserving (m : ChannelArchiveMap)
    (ck sp ap : String) (now : Nat) :
    ((strIsEmpty (strTrim ck) || strIsEmpty (strTrim sp) ||
        strIsEmpty (strTrim ap)) = true →
      (∃ e, upsert m ck sp ap now = .error e) ∧
        upsert_disk_after m ck sp ap now = m) ∧
    ((strIsEmpty (strTrim ck) || strIsEmpty (strTrim sp) ||
        strIsEmpty (strTrim ap)) = false →
      upsert m ck sp ap now =
        .ok (channel_map_insert m ck
              { channel_key := ck, source_path := sp, archive_path := ap,
                updated_at_epoch_secs := now },
             { channel_key := ck, source_path := sp, archive_path := ap,
               updated_at_epoch_secs := now }) ∧
        upsert_disk_after m ck sp ap now ck =
          some { channel_key := ck, source_path := sp, archive_path := ap,
                 updated_at_epoch_secs := now } ∧
        ∀ k, k ≠ ck → upsert_disk_after m ck sp ap now k = m k) := by
  constructor
  · intro h
    by_cases hck : strIsEmpty (strTrim ck) = true
    · exact ⟨⟨"channel key cannot be empty", by simp [upsert, hck]⟩,
        by simp [upsert_disk_after, upsert, hck]⟩
    · by_cases hsp : strIsEmpty (strTrim sp) = true
      · exact ⟨⟨"source path cannot be empty", by simp [upsert, hck, hsp]⟩,
          by simp [upsert_disk_after, upsert, hck, hsp]⟩
      · have hap : strIsEmpty (strTrim ap) = true := by
          simp only [Bool.or_eq_true] at h
          tauto
        exact ⟨⟨"archive path cannot be empty", by simp [upsert, hck, hsp, hap]⟩,
          by simp [upsert_disk_after, upsert, hck, hsp, hap]⟩
  · intro h
    simp only [Bool.or_eq_false_iff] at h
    obtain ⟨⟨h1, h2⟩, h3⟩ := h
    refine ⟨by simp [upsert, h1, h2, h3], ?_, ?_⟩
    · simp [upsert_disk_after, upsert, h1, h2, h3, channel_map_insert]
    · intro k hk
      simp [upsert_disk_after, upsert, h1, h2, h3, channel_map_insert, hk]

/-- Witness for C10: a successful upsert at a concrete key, and a rejected
whitespace-only key. -/
theorem upsert_validated_frame_preserving_witness :
    (strIsEmpty (strTrim "agent:main:discord:channel:123") ||
      strIsEmpty (strTrim "/tmp/s1.jsonl") ||
      strIsEmpty (strTrim "/tmp/a1.jsonl")) = false ∧
    upsert empty_channel_map "agent:main:discord:channel:123" "/tmp/s1.jsonl"
        "/tmp/a1.jsonl" 99 =
      .ok (channel_map_insert empty_channel_map "agent:main:discord:channel:123"
            { channel_key := "agent:main:discord:channel:123",
              source_path := "/tmp/s1.jsonl", archive_path := "/tmp/a1.jsonl",
              updated_at_epoch_secs := 99 },
           { channel_key := "agent:main:discord:channel:123",
             source_path := "/tmp/s1.jsonl", archive_path := "/tmp/a1.jsonl",
             updated_at_epoch_secs := 99 }) ∧
    (∃ e, upsert empty_channel_map " " "/tmp/s1.jsonl" "/tmp/a1.jsonl" 99 =
      .error e) := by
  refine ⟨by decide, ?_, ?_⟩
  · exact ((upsert_validated_frame_preserving empty_channel_map
      "agent:main:discord:channel:123" "/tmp/s1.jsonl" "/tmp/a1.jsonl" 99).2
      (by decide)).1
  · exact ((upsert_validated_frame_preserving empty_channel_map
      " " "/tmp/s1.jsonl" "/tmp/a1.jsonl" 99).1 (by decide)).1

/-- A configuration accepted by `validate` has its trigger ratio in `(0, 1]`
and a nonzero poll interval. -/
theorem cfg_validate_ranges (cfg : Cfg.MoonConfig) (u : Unit)
    (h : Cfg.validate cfg = Except.ok u) :
    (0 < cfg.thresholds.trigger_ratio ∧ cfg.thresholds.trigger_ratio ≤ 1) ∧
    0 < cfg.watcher.poll_interval_secs := by
  unfold Cfg.validate at h
  split at h
  · exact Except.noConfusion h
  next h1 =>
    split at h
    · exact Except.noConfusion h
    next h2 =>
      exact ⟨not_not.mp h1, Nat.pos_of_ne_zero h2⟩

/-- A set environment variable whose trimmed value parses as `u64` wins in
`env_or_u64`. -/
theorem env_or_u64_parses (env : EnvMap) (var v : String) (n fb : Nat)
    (hv : envLookup env var = some v) (hp : parseU64 (strTrim v) = some n) :
    Cfg.env_or_u64 env var fb = n := by
  unfold Cfg.env_or_u64
  rw [hv]
  simp [hp]

/-- A set environment variable with a nonempty trimmed value wins in
`env_or_string`. -/
theorem env_or_string_nonempty (env : EnvMap) (var v : String) (fb : String)
    (hv : envLookup env var = some v) (he : strIsEmpty (strTrim v) = false) :
    Cfg.env_or_string env var fb = strTrim v := by
  unfold Cfg.env_or_string
  rw [hv]
  simp [he]

/-- C9 counterexample: with `MOON_POLL_INTERVAL_SECS=abc` set — an unparsable
numeric override — and no config file, `load_config` succeeds with the default
30-second poll interval instead of rejecting the invalid value with an
error. -/
theorem config_silent_fallback_counterexample :
    envLookup c9_env "MOON_POLL_INTERVAL_SECS" = some "abc" ∧
    parseU64 (strTrim "abc") = none ∧
    Cfg.load_config noF64 c9_env (Except.ok none) =
      Except.ok Cfg.configDefault := by
  refine ⟨rfl, by decide, by rfl⟩

/-- C9 (amended): whenever `load_config` succeeds, the loaded configuration
passed validation (trigger ratio in `(0, 1]`, nonzero poll interval), and any
environment override that actually parses — a `u64` field with a parsable
value, a string field with a nonempty value — wins over the file value and
the default; unparsable or empty environment values silently fall back
instead of being rejected. -/
theorem load_config_env_overlay (pf : String → Option Rat) (env : EnvMap)
    (file : Except String (Option Cfg.PartialMoonConfig)) (cfg : Cfg.MoonConfig)
    (h : Cfg.load_config pf env file = Except.ok cfg) :
    (0 < cfg.thresholds.trigger_ratio ∧ cfg.thresholds.trigger_ratio ≤ 1) ∧
    0 < cfg.watcher.poll_interval_secs ∧
    (∀ v n, envLookup env "MOON_POLL_INTERVAL_SECS" = some v →
      parseU64 (strTrim v) = some n → cfg.watcher.poll_interval_secs = n) ∧
    (∀ v n, envLookup env "MOON_DISTILL_MAX_PER_CYCLE" = some v →
      parseU64 (strTrim v) = some n → cfg.distill.max_per_cycle = n) ∧
    (∀ v, envLookup env "MOON_DISTILL_MODE" = some v →
      strIsEmpty (strTrim v) = false → cfg.distill.mode = strTrim v) := by
  rcases file with e | pfc
  · exact Except.noConfusion h
  · simp only [Cfg.load_config] at h
    split at h
    · exact Except.noConfusion h
    next u heq =>
      injection h with h
      subst h
      refine ⟨(cfg_validate_ranges _ u heq).1, (cfg_validate_ranges _ u heq).2,
        ?_, ?_, ?_⟩
      · intro v n hv hp
        exact env_or_u64_parses env _ v n _ hv hp
      · intro v n hv hp
        exact env_or_u64_parses env _ v n _ hv hp
      · intro v hv he
        exact env_or_string_nonempty env _ v _ hv he

/-- Witness for C9 (amended): three parsable overrides (poll interval 60,
distill max-per-cycle 4, distill mode `idle`) all win over the defaults in a
successfully loaded configuration. -/
theorem load_config_env_overlay_witness :
    c9_w_cfg.watcher.poll_interval_secs = 60 ∧
    c9_w_cfg.distill.max_per_cycle = 4 ∧
    c9_w_cfg.distill.mode = "idle" ∧
    0 < c9_w_cfg.watcher.poll_interval_secs := by
  have h := load_config_env_overlay noF64 c9_w_env (Except.ok none) c9_w_cfg
    (by rfl)
  exact ⟨h.2.2.1 "60" 60 (by decide) (by decide),
         h.2.2.2.1 "4" 4 (by decide) (by decide),
         h.2.2.2.2 "idle" (by decide) (by decide),
         h.2.1⟩

/-- A string is `strIsEmpty` exactly when it is the empty string. -/
theorem strIsEmpty_true_iff (s : String) : strIsEmpty s = true ↔ s = "" := by
  cases s with
  | mk data =>
    simp only [strIsEmpty, List.isEmpty_iff]
    constructor
    · intro h
      exact congrArg String.mk h
    · intro h
      exact congrArg String.data h

/-- String concatenation is associative. -/
theorem strAppend_assoc (a b c : String) : a ++ b ++ c = a ++ (b ++ c) := by
  cases a with
  | mk da =>
    cases b with
    | mk db =>
      cases c with
      | mk dc =>
        exact congrArg String.mk (List.append_assoc da db dc)

/-- The empty string is a right unit. -/
theorem strAppend_empty (a : String) : a ++ "" = a := by
  cases a with
  | mk da =>
    exact congrArg String.mk (List.append_nil da)

/-- `strConcat` distributes over list append. -/
theorem strConcat_append (l1 l2 : List String) :
    strConcat (l1 ++ l2) = strConcat l1 ++ strConcat l2 := by
  induction l1 with
  | nil => rfl
  | cons s rest ih =>
    show s ++ strConcat (rest ++ l2) = s ++ strConcat rest ++ strConcat l2
    rw [ih, strAppend_assoc]

/-- `distill_max_chunks` never returns zero: a parsed override is kept only
when positive, every other path yields the default 128. -/
theorem one_le_distill_max_chunks (env : EnvMap) :
    1 ≤ distill_max_chunks env := by
  unfold distill_max_chunks
  split
  · split
    · decide
    · split
      · split
        · omega
        · decide
      · decide
  · decide

/-- Invariants of the chunk-streaming loop: the chunk count matches the
emitted list, stays within `[1, maxc]`, hits `maxc` exactly when truncating,
and a non-truncated run loses no input. -/
theorem stream_loop_spec (target maxc : Nat) (lines : List String) :
    ∀ (current : String) (bytes count : Nat) (acc : List String),
      acc.length = count → count < maxc →
      ((stream_chunks_loop target maxc lines current bytes count acc).1.length =
        (stream_chunks_loop target maxc lines current bytes count acc).2.1) ∧
      1 ≤ (stream_chunks_loop target maxc lines current bytes count acc).2.1 ∧
      (stream_chunks_loop target maxc lines current bytes count acc).2.1 ≤ maxc ∧
      ((stream_chunks_loop target maxc lines current bytes count acc).2.2 = true →
        (stream_chunks_loop target maxc lines current bytes count acc).2.1 = maxc) ∧
      ((stream_chunks_loop target maxc lines current bytes count acc).2.2 = false →
        strConcat (stream_chunks_loop target maxc lines current bytes count acc).1 =
          strConcat acc ++ current ++
            strConcat (lines.map fun l => l ++ "\n")) := by
  induction lines with
  | nil =>
    intro current bytes count acc hacc hcount
    simp only [stream_chunks_loop]
    by_cases hemp : strIsEmpty current = true
    · rw [if_pos hemp]
      have hcur : current = "" := (strIsEmpty_true_iff current).mp hemp
      subst hcur
      by_cases hc0 : count = 0
      · rw [if_pos hc0]
        subst hc0
        have hacc' : acc = [] := List.length_eq_zero.mp hacc
        subst hacc'
        refine ⟨rfl, le_refl 1, hcount, ?_, ?_⟩
        · intro hf
          exact Bool.noConfusion hf
        · intro _
          rfl
      · rw [if_neg hc0]
        refine ⟨hacc, Nat.one_le_iff_ne_zero.mpr hc0, le_of_lt hcount, ?_, ?_⟩
        · intro hf
          exact Bool.noConfusion hf
        · intro _
          simp [strConcat, strAppend_empty]
    · rw [if_neg hemp]
      refine ⟨by simp [hacc], Nat.le_add_left 1 count, hcount, ?_, ?_⟩
      · intro hf
        exact Bool.noConfusion hf
      · intro _
        simp [strConcat_append, strConcat, strAppend_empty]
  | cons raw rest ih =>
    intro current bytes count acc hacc hcount
    simp only [stream_chunks_loop]
    by_cases hcond : strIsEmpty current = false ∧
        target < bytes + (utf8Len raw + 1)
    · rw [if_pos hcond]
      by_cases hmax : maxc ≤ count + 1
      · rw [if_pos hmax]
        have heq : count + 1 = maxc := le_antisymm hcount hmax
        refine ⟨by simp [hacc], Nat.le_add_left 1 count, hcount, ?_, ?_⟩
        · intro _
          exact heq
        · intro hf
          exact Bool.noConfusion hf
      · rw [if_neg hmax]
        have h := ih (raw ++ "\n") (utf8Len raw + 1) (count + 1)
          (acc ++ [current]) (by simp [hacc]) (not_le.mp hmax)
        refine ⟨h.1, h.2.1, h.2.2.1, h.2.2.2.1, ?_⟩
        intro hf
        rw [h.2.2.2.2 hf]
        simp [strConcat_append, strConcat, strAppend_assoc, strAppend_empty]
    · rw [if_neg hcond]
      have h := ih (current ++ raw ++ "\n") (bytes + (utf8Len raw + 1)) count
        acc hacc hcount
      refine ⟨h.1, h.2.1, h.2.2.1, h.2.2.2.1, ?_⟩
      intro hf
      rw [h.2.2.2.2 hf]
      simp [strConcat, strAppend_assoc]

/-- C7 counterexample: streaming an empty archive emits one empty chunk
(`(chunk_count, truncated) = (1, false)`), although no line ever made a chunk
exceed the target and the final remainder was empty. -/
theorem stream_chunks_counterexample :
    stream_archive_chunks [] 4096 128 = ([""], 1, false) := by
  decide

/-- C7 (amended): chunks are formed line-by-line by the greedy loop
(`stream_chunks_loop`), which emits the pending chunk exactly when it is
nonempty and adding the next line's bytes would exceed the target; with the
cap `distill_max_chunks env` — 128 when `MOON_DISTILL_MAX_CHUNKS` is unset,
and always at least 1 — the run emits between 1 and `max_chunks` chunks
(one empty chunk for empty input), `truncated = true` forces exactly
`max_chunks` chunks (the pending line is discarded), and a non-truncated run
preserves the entire input, each line with its `\n` terminator. -/
theorem stream_chunks_amended (env : EnvMap) (lines : List String)
    (target : Nat) :
    (envLookup env "MOON_DISTILL_MAX_CHUNKS" = none →
      distill_max_chunks env = DEFAULT_DISTILL_MAX_CHUNKS) ∧
    1 ≤ distill_max_chunks env ∧
    ((stream_archive_chunks lines target (distill_max_chunks env)).1.length =
      (stream_archive_chunks lines target (distill_max_chunks env)).2.1) ∧
    1 ≤ (stream_archive_chunks lines target (distill_max_chunks env)).2.1 ∧
    (stream_archive_chunks lines target (distill_max_chunks env)).2.1 ≤
      distill_max_chunks env ∧
    ((stream_archive_chunks lines target (distill_max_chunks env)).2.2 = true →
      (stream_archive_chunks lines target (distill_max_chunks env)).2.1 =
        distill_max_chunks env) ∧
    ((stream_archive_chunks lines target (distill_max_chunks env)).2.2 = false →
      strConcat (stream_archive_chunks lines target (distill_max_chunks env)).1 =
        strConcat (lines.map fun l => l ++ "\n")) := by
  have hm := one_le_distill_max_chunks env
  have h := stream_loop_spec target (distill_max_chunks env) lines "" 0 0 [] rfl hm
  refine ⟨?_, hm, h.1, h.2.1, h.2.2.1, h.2.2.2.1, ?_⟩
  · intro hn
    unfold distill_max_chunks
    rw [hn]
  · intro hf
    exact h.2.2.2.2 hf

/-- Witness for C7 (amended): with no environment override the cap is 128,
and a concrete non-truncated run preserves its two input lines. -/
theorem stream_chunks_amended_witness :
    distill_max_chunks [] = DEFAULT_DISTILL_MAX_CHUNKS ∧
    strConcat (stream_archive_chunks ["aa", "bb"] 3 (distill_max_chunks [])).1 =
      strConcat (["aa", "bb"].map fun l => l ++ "\n") := by
  have h := stream_chunks_amended [] ["aa", "bb"] 3
  exact ⟨h.1 rfl, h.2.2.2.2.2.2 (by decide)⟩

/-- When every line of the input is skipped (blank, JSON-shaped,
fragment-shaped or marker-tainted), the sanitiser loop keeps its
accumulator untouched. -/
theorem sanitize_loop_all_dropped (ls : List String) :
    ∀ (acc : List String) (b : Nat),
      (∀ l ∈ ls, strIsEmpty (strTrim l) = true ∨
        (looks_like_json_blob (strTrim l) ||
          looks_like_structured_fragment (strTrim l) ||
          strContains (strTrim l) "<<<EXTERNAL_UNTRUSTED_CONTENT>>>") = true) →
      sanitize_loop ls acc b = some (acc, b) := by
  induction ls with
  | nil =>
    intro acc b _
    rfl
  | cons raw rest ih =>
    intro acc b h
    have hr := h raw (List.mem_cons_self _ _)
    have hrest := fun l hl => h l (List.mem_cons_of_mem _ hl)
    simp only [sanitize_loop]
    rcases hr with he | hj
    · rw [if_pos he]
      exact ih acc b hrest
    · by_cases he : strIsEmpty (strTrim raw) = true
      · rw [if_pos he]
        exact ih acc b hrest
      · rw [if_neg he, if_pos hj]
        exact ih acc b hrest

/-- A reply whose every line is dropped sanitises to `none`: no bullet is
ever counted, so the `MIN_MODEL_BULLETS` check fails. -/
theorem sanitize_all_dropped_none (s : String)
    (h : ∀ l ∈ strLines s, strIsEmpty (strTrim l) = true ∨
      (looks_like_json_blob (strTrim l) ||
        looks_like_structured_fragment (strTrim l) ||
        strContains (strTrim l) "<<<EXTERNAL_UNTRUSTED_CONTENT>>>") = true) :
    sanitize_model_summary s = none := by
  unfold sanitize_model_summary
  rw [sanitize_loop_all_dropped (strLines s) [] 0 h]
  rfl

/-- C6: when a remote backend is configured and its reply sanitises to `none`
(fewer than `MIN_MODEL_BULLETS` bullet lines survive), the distillation
summary is the local heuristic's summary under the same final clamping, with
provider `local`; and a reply whose every line is dropped as blank,
JSON-shaped, fragment-shaped or marker-tainted always sanitises to `none`. -/
theorem distill_remote_rejection_falls_back (label out localSummary : String)
    (remote_result : Except String String)
    (hrr : remote_result = Except.ok out)
    (hsan : sanitize_model_summary out = none) :
    distill_summary (some label) remote_result (Except.ok localSummary) =
      Except.ok ("local", clamp_summary localSummary) ∧
    ∀ s, (∀ l ∈ strLines s, strIsEmpty (strTrim l) = true ∨
        (looks_like_json_blob (strTrim l) ||
          looks_like_structured_fragment (strTrim l) ||
          strContains (strTrim l) "<<<EXTERNAL_UNTRUSTED_CONTENT>>>") = true) →
      sanitize_model_summary s = none := by
  constructor
  · subst hrr
    simp only [distill_summary, hsan]
  · exact fun s hs => sanitize_all_dropped_none s hs

/-- Witness for C6: a reply of one JSON-object line, one code-fence line and
one JSON-array line is rejected by the sanitiser, and the written summary is
the clamped local one. -/
theorem distill_remote_rejection_falls_back_witness :
    distill_summary (some "openai") (Except.ok c6_bad_out)
        (Except.ok c6_local) =
      Except.ok ("local", clamp_summary c6_local) ∧
    sanitize_model_summary c6_bad_out = none := by
  refine ⟨(distill_remote_rejection_falls_back "openai" c6_bad_out c6_local
    (Except.ok c6_bad_out) rfl (by decide)).1, by decide⟩

end Moon
